import Mathlib

/-!
Shallow embedding of the Telegram button-bot (`bot1.py`): a per-user
interactive session store with an inline-button layout builder, a
finalize/share/post flow, and an external invite-link table.

External transport calls (`copy_message`, `send_message`, `reply_text`,
`create_chat_invite_link`, `get_chat`, `get_chat_member`,
`edit_message_text`, `answer`) are modelled by a `Transport` record of
fallible oracles; each handler returns the updated user data and invite
table, the list of transport calls it attempted, and the uncaught
exception (if any) that aborted it.  Python `str`/`int`/list semantics
needed by the handlers (strip, rsplit, int() parsing, negative list
indexing, truthiness of empty strings) are embedded explicitly for the
ASCII fragment the handlers manipulate.
-/

namespace ButtonBot

/-- ASCII whitespace, as stripped by Python `str.strip()` (restricted to
the ASCII range used by this development). -/
def pyWs (c : Char) : Bool :=
  c = ' ' || c = '\t' || c = '\n' || c = '\r' || c = '\x0b' || c = '\x0c'

/-- Python `str.strip()`: drop whitespace from both ends. -/
def pyStrip (s : String) : String :=
  String.mk (((s.data.dropWhile pyWs).reverse.dropWhile pyWs).reverse)

/-- Digit-run tail of Python `int()` parsing: digits with single
underscores allowed between digits. `acc` is the value parsed so far. -/
def pyDigitsAux : Nat → List Char → Option Nat
  | acc, [] => some acc
  | acc, '_' :: rest =>
    match rest with
    | c :: rest2 =>
      if c.isDigit then pyDigitsAux (acc * 10 + (c.toNat - 48)) rest2 else none
    | [] => none
  | acc, c :: rest =>
    if c.isDigit then pyDigitsAux (acc * 10 + (c.toNat - 48)) rest else none

/-- A nonempty digit run (Python `int()` body, ASCII digits). -/
def pyDigits : List Char → Option Nat
  | [] => none
  | c :: rest => if c.isDigit then pyDigitsAux (c.toNat - 48) rest else none

/-- Python `int(s)`: strip whitespace, optional sign, nonempty digit run.
Returns `none` where Python raises `ValueError`. -/
def pyInt (s : String) : Option Int :=
  match (pyStrip s).data with
  | '+' :: rest => (pyDigits rest).map Int.ofNat
  | '-' :: rest => (pyDigits rest).map (fun n => -(n : Int))
  | l => (pyDigits l).map Int.ofNat

/-- On a *reversed* character list, split at the first character
satisfying `p`: returns `(revAfter, revBefore)` with the matched
character removed, or `none` when no character matches. -/
def breakAtRev (p : Char → Bool) : List Char → Option (List Char × List Char)
  | [] => none
  | c :: rest =>
    if p c then some ([], rest)
    else
      match breakAtRev p rest with
      | none => none
      | some (a, b) => some (c :: a, b)

/-- Python `s.rsplit(" ", 1)`: split at the last space character, if any. -/
def rsplitSpace1 (s : String) : List String :=
  match breakAtRev (fun c => c = ' ') s.data.reverse with
  | none => [s]
  | some (revLast, revInit) => [String.mk revInit.reverse, String.mk revLast.reverse]

/-- Modelled from the spec words for comparison with `rsplitSpace1`:
split at the last *whitespace* boundary ("split `text` on the last
whitespace boundary into `(label, url)`"). -/
def splitLastWsSpec (s : String) : List String :=
  match breakAtRev pyWs s.data.reverse with
  | none => [s]
  | some (revLast, revInit) => [String.mk revInit.reverse, String.mk revLast.reverse]

/-- Python `s.startswith(pre)` (structural, so that closed statements
evaluate). -/
def strHasPrefix (pre s : String) : Bool :=
  List.isPrefixOf pre.data s.data

/-- Helper of `splitOnChar`: `acc` holds the current field reversed. -/
def splitOnCharAux (sep : Char) : List Char → List Char → List String
  | [], acc => [String.mk acc.reverse]
  | c :: rest, acc =>
    if c = sep then String.mk acc.reverse :: splitOnCharAux sep rest []
    else splitOnCharAux sep rest (c :: acc)

/-- Python `s.split(sep)` for a one-character separator
(`"".split(":") = [""]`, trailing separators yield empty fields). -/
def splitOnChar (sep : Char) (s : String) : List String :=
  splitOnCharAux sep s.data []

/-- `is_valid_url` from the source: URL-scheme whitelist. -/
def is_valid_url (url : String) : Bool :=
  strHasPrefix "http://" url || strHasPrefix "https://" url || strHasPrefix "tg://" url

/-! ### Association-list session store (Python `dict` fragment) -/

section AList
variable {κ : Type} {α : Type} [DecidableEq κ]

/-- `d.get(k)` on an insertion-ordered association list. -/
def alook (k : κ) : List (κ × α) → Option α
  | [] => none
  | (k2, v) :: r => if k2 = k then some v else alook k r

/-- `d[k] = v`: replace in place, or append a fresh binding. -/
def ains (k : κ) (v : α) : List (κ × α) → List (κ × α)
  | [] => [(k, v)]
  | (k2, v2) :: r => if k2 = k then (k2, v) :: r else (k2, v2) :: ains k v r

/-- `del d[k]`: remove the (first) binding of `k`. -/
def aerase (k : κ) : List (κ × α) → List (κ × α)
  | [] => []
  | (k2, v2) :: r => if k2 = k then r else (k2, v2) :: aerase k r

theorem mem_ains {p : κ × α} {k : κ} {v : α} :
    ∀ {l : List (κ × α)}, p ∈ ains k v l → p = (k, v) ∨ p ∈ l := by
  intro l
  induction l with
  | nil => simp [ains]
  | cons hd tl ih =>
    simp only [ains]
    by_cases h : hd.1 = k
    · cases hd with
      | mk k2 v2 =>
        simp only at h
        simp [h, List.mem_cons]
        tauto
    · cases hd with
      | mk k2 v2 =>
        simp only at h
        simp only [if_neg h, List.mem_cons]
        rintro (rfl | hm)
        · tauto
        · rcases ih hm with h1 | h1 <;> tauto

theorem mem_aerase {p : κ × α} {k : κ} :
    ∀ {l : List (κ × α)}, p ∈ aerase k l → p ∈ l := by
  intro l
  induction l with
  | nil => simp [aerase]
  | cons hd tl ih =>
    cases hd with
    | mk k2 v2 =>
      simp only [aerase]
      by_cases h : k2 = k
      · simp only [if_pos h]
        intro hm; exact List.mem_cons_of_mem _ hm
      · simp only [if_neg h, List.mem_cons]
        rintro (rfl | hm)
        · exact Or.inl rfl
        · exact Or.inr (ih hm)

theorem alook_ains_self (k : κ) (v : α) :
    ∀ l : List (κ × α), alook k (ains k v l) = some v := by
  intro l
  induction l with
  | nil => simp [ains, alook]
  | cons hd tl ih =>
    cases hd with
    | mk k2 v2 =>
      simp only [ains]
      by_cases h : k2 = k
      · simp [alook, h]
      · simp [alook, h, ih]

theorem alook_ains_ne {k k2 : κ} (v : α) (h : k2 ≠ k) :
    ∀ l : List (κ × α), alook k (ains k2 v l) = alook k l := by
  intro l
  induction l with
  | nil => simp [ains, alook, h]
  | cons hd tl ih =>
    cases hd with
    | mk k3 v3 =>
      simp only [ains]
      by_cases h3 : k3 = k2
      · subst h3; simp [alook, h]
      · simp only [if_neg h3, alook]
        by_cases h4 : k3 = k <;> simp [h4, ih]

theorem alook_mem {k : κ} {v : α} :
    ∀ {l : List (κ × α)}, alook k l = some v → (k, v) ∈ l := by
  intro l
  induction l with
  | nil => simp [alook]
  | cons hd tl ih =>
    cases hd with
    | mk k2 v2 =>
      by_cases h : k2 = k
      · subst h
        intro hv
        rw [alook, if_pos rfl] at hv
        obtain rfl := Option.some.inj hv
        exact List.mem_cons_self _ _
      · simp only [alook, if_neg h]
        intro hv; exact List.mem_cons_of_mem _ (ih hv)

theorem alook_eq_none_of_not_memKey {k : κ} :
    ∀ {l : List (κ × α)}, k ∉ l.map Prod.fst → alook k l = none := by
  intro l
  induction l with
  | nil => simp [alook]
  | cons hd tl ih =>
    cases hd with
    | mk k2 v2 =>
      simp only [List.map_cons, List.mem_cons, alook]
      intro h
      push_neg at h
      simp [Ne.symm h.1, ih h.2]

theorem alook_aerase_self {k : κ} :
    ∀ {l : List (κ × α)}, (l.map Prod.fst).Nodup →
      alook k (aerase k l) = none := by
  intro l
  induction l with
  | nil => simp [alook, aerase]
  | cons hd tl ih =>
    cases hd with
    | mk k2 v2 =>
      simp only [List.map_cons, List.nodup_cons]
      rintro ⟨hnot, hnd⟩
      by_cases h : k2 = k
      · subst h
        simp only [aerase, if_pos rfl]
        exact alook_eq_none_of_not_memKey hnot
      · simp [aerase, alook, h, ih hnd]

end AList

/-! ### Data model -/

/-- One URL button held in a session (`{"text": ..., "url": ...}`). -/
structure Btn where
  text : String
  url : String
deriving DecidableEq, Repr

/-- A button of an inbound (forwarded) message keyboard; `url` is `none`
for non-URL buttons. -/
structure ExtBtn where
  text : String
  url : Option String
deriving DecidableEq, Repr

/-- A rendered keyboard button: URL button, callback button, or
switch-inline-query ("share") button. -/
inductive KBtn where
  | urlB (text url : String)
  | cbB (text data : String)
  | shareB (text query : String)
deriving DecidableEq, Repr

/-- The session dictionary created by `start_message`. -/
structure Session where
  session_id : String
  chat_id : Int
  text : String
  inline_buttons : List (List Btn)
  awaiting_button_info : Bool
  target_row : Option Int
  last_message_id : Option Nat
  is_media : Bool
  original_message_id : Nat
  final_message_id : Option Nat
  awaiting_post : Bool
  post_channel : Option Int
deriving DecidableEq, Repr

/-- One user's `context.user_data`: the session dictionary plus the two
pending-input pointers. -/
structure UserData where
  sessions : List (String × Session) := []
  awaiting_session_id : Option String := none
  awaiting_post_session_id : Option String := none
deriving DecidableEq, Repr

instance : Inhabited UserData := ⟨{}⟩

/-- The module-level invite-link table `invite_links_button_bot`
(destination chat id ↦ (title, invite link)). -/
abbrev Invites := List (Int × (String × String))

/-- An inbound Telegram message, restricted to the fields the handlers
read. -/
structure Msg where
  message_id : Nat
  chat_id : Int
  chat_private : Bool
  user_id : Int
  text : Option String
  caption : Option String
  forward_date : Bool
  forward_from_chat : Option Int
  reply_markup : List (List ExtBtn)
deriving DecidableEq, Repr

/-- Outcomes of the external transport calls a handler may issue.  Every
call is fallible; `.error e` models a raised Telegram/network exception
with text `e`. -/
structure Transport where
  answerCb : Except String Unit
  copyMsg : Int → Int → Nat → Except String Nat
  sendMsg : Int → String → Except String Nat
  replyText : String → Except String Nat
  createInvite : Int → Except String String
  getChat : Int → Except String (Option String)
  getChatMember : Int → Int → Except String String
  editMsgText : String → Except String Unit
  answerInline : Except String Unit

/-- A transport where every call succeeds, with fixed return values. -/
def okTransport : Transport where
  answerCb := .ok ()
  copyMsg := fun _ _ _ => .ok 1000
  sendMsg := fun _ _ => .ok 1001
  replyText := fun _ => .ok 1002
  createInvite := fun _ => .ok "https://t.me/+link"
  getChat := fun _ => .ok (some "Chan")
  getChatMember := fun _ _ => .ok "administrator"
  editMsgText := fun _ => .ok ()
  answerInline := .ok ()

/-- The record of one attempted external call (with its arguments). -/
inductive TCall where
  | answerCb
  | copy (chatId fromId : Int) (msgId : Nat) (kb : List (List KBtn))
  | send (chatId : Int) (text : String) (kb : Option (List (List KBtn)))
  | reply (text : String) (kb : Option (List (List KBtn))) (replyTo : Option Nat)
  | invite (dest : Int)
  | getChat (dest : Int)
  | member (dest : Int) (userId : Int)
  | editText (text : String)
  | answerInline (content : String) (kb : List (List KBtn))
deriving DecidableEq, Repr

/-- Result of running one handler: updated user data and invite table,
the transport calls attempted (in order), and the uncaught exception
that aborted the handler, if any. -/
structure HRes where
  ud : UserData
  inv : Invites
  calls : List TCall
  err : Option String
deriving DecidableEq, Repr

/-! ### Keyboard builders (`build_*_keyboard`) -/

/-- `build_editing_keyboard`: each button row followed by its
`add_to_row` "+" button, then a `new_row` "+" row, then a Done row when
any button row exists. -/
def build_editing_keyboard (s : Session) : List (List KBtn) :=
  (s.inline_buttons.enum.map fun p =>
    p.2.map (fun b => KBtn.urlB b.text b.url) ++
      [KBtn.cbB "+" ("session:" ++ s.session_id ++ ":add_to_row:" ++ toString p.1)])
  ++ [[KBtn.cbB "+" ("session:" ++ s.session_id ++ ":new_row")]]
  ++ (if s.inline_buttons = [] then []
      else [[KBtn.cbB "Done ✅" ("session:" ++ s.session_id ++ ":done")]])

/-- `build_final_keyboard`: exactly the URL buttons. -/
def build_final_keyboard (s : Session) : List (List KBtn) :=
  s.inline_buttons.map fun row => row.map fun b => KBtn.urlB b.text b.url

/-- `build_post_share_keyboard`: a Share row and a Post row. -/
def build_post_share_keyboard (s : Session) : List (List KBtn) :=
  [[KBtn.shareB "Share" ("share_" ++ s.session_id)],
   [KBtn.cbB "Post To Group/Channel" ("session:" ++ s.session_id ++ ":post")]]

/-- `build_yes_no_keyboard`: Yes (carrying the destination) and No. -/
def build_yes_no_keyboard (s : Session) (dest : Int) : List (List KBtn) :=
  [[KBtn.cbB "Yes" ("session:" ++ s.session_id ++ ":post_confirm:yes:" ++ toString dest),
    KBtn.cbB "No" ("session:" ++ s.session_id ++ ":post_confirm:no")]]

/-! ### `start_message` -/

/-- Button extraction from a forwarded message's keyboard: keep URL
buttons (a `None` or empty url is falsy and skipped), drop empty rows. -/
def extract_buttons (m : Msg) : List (List Btn) :=
  (m.reply_markup.map fun row =>
    row.filterMap fun b =>
      match b.url with
      | some u => if u = "" then none else some ⟨b.text, u⟩
      | none => none).filter (· ≠ [])

/-- The session dictionary built by `start_message` (before the
`copy_message` render records `last_message_id`). -/
def mkSession (m : Msg) (suffix : String) (buttons : List (List Btn)) : Session where
  session_id := toString m.message_id ++ "_" ++ suffix
  chat_id := m.chat_id
  text := (m.text.getD (m.caption.getD ""))
  inline_buttons := buttons
  awaiting_button_info := false
  target_row := none
  last_message_id := none
  is_media := m.text.isNone
  original_message_id := m.message_id
  final_message_id := none
  awaiting_post := false
  post_channel := none

/-- `start_message`: always create a new session (extracting buttons
when the message is forwarded), store it, and re-emit the message with
the editing keyboard; a successful render records `last_message_id`.
`suffix` stands for the `uuid4().hex[:6]` fragment of the fresh id. -/
def start_message (m : Msg) (suffix : String) (t : Transport)
    (ud : UserData) (inv : Invites) : HRes :=
  if m.chat_private = false then ⟨ud, inv, [], none⟩
  else
    let buttons := if m.forward_date then extract_buttons m else []
    let s := mkSession m suffix buttons
    let sid := s.session_id
    let ud1 := { ud with sessions := ains sid s ud.sessions }
    let kb := build_editing_keyboard s
    match t.copyMsg m.chat_id m.chat_id m.message_id with
    | .ok mid =>
      let s2 := { s with last_message_id := some mid }
      ⟨{ ud1 with sessions := ains sid s2 ud1.sessions }, inv,
        [.copy m.chat_id m.chat_id m.message_id kb], none⟩
    | .error e =>
      ⟨ud1, inv, [.copy m.chat_id m.chat_id m.message_id kb], some e⟩

/-! ### `button_callback` -/

/-- Prompt text of the add-button flow. -/
def promptBtnInfo : String := "Please send button info in format: <label> <URL>"

/-- Shared tail of the `add_to_row` / `new_row` branches: mark the
session as awaiting button info with the given target row, set the
store's awaiting pointer, then prompt (state is mutated before the
send, so it sticks even when the send fails). -/
def cbSetTarget (i : Int) (sid : String) (s : Session) (t : Transport)
    (ud : UserData) (inv : Invites) : HRes :=
  let s2 := { s with awaiting_button_info := true, target_row := some i }
  let ud2 := { ud with sessions := ains sid s2 ud.sessions,
                       awaiting_session_id := some sid }
  match t.sendMsg s.chat_id promptBtnInfo with
  | .ok _ => ⟨ud2, inv, [.send s.chat_id promptBtnInfo none], none⟩
  | .error e => ⟨ud2, inv, [.send s.chat_id promptBtnInfo none], some e⟩

/-- The `add_to_row` / `new_row` branch.  `add_to_row` requires a fourth
field parsing as an int (else no-op); `new_row` targets the current row
count. -/
def cbAddNew (isAdd : Bool) (data : List String) (sid : String) (s : Session)
    (t : Transport) (ud : UserData) (inv : Invites) : HRes :=
  if isAdd then
    if data.length < 4 then ⟨ud, inv, [], none⟩
    else
      match pyInt (data.getD 3 "") with
      | none => ⟨ud, inv, [], none⟩
      | some i => cbSetTarget i sid s t ud inv
  else cbSetTarget (Int.ofNat s.inline_buttons.length) sid s t ud inv

/-- The `done` branch: reject when no buttons exist; otherwise re-emit
the original content with the final keyboard, record
`final_message_id`, and send the Share/Post actions message. -/
def cbDone (sid : String) (s : Session) (t : Transport)
    (ud : UserData) (inv : Invites) : HRes :=
  if s.inline_buttons = [] then
    match t.sendMsg s.chat_id "No URL buttons created yet." with
    | .ok _ => ⟨ud, inv, [.send s.chat_id "No URL buttons created yet." none], none⟩
    | .error e => ⟨ud, inv, [.send s.chat_id "No URL buttons created yet." none], some e⟩
  else
    let fkb := build_final_keyboard s
    let c1 : TCall := .copy s.chat_id s.chat_id s.original_message_id fkb
    match t.copyMsg s.chat_id s.chat_id s.original_message_id with
    | .error e => ⟨ud, inv, [c1], some e⟩
    | .ok mid =>
      let s2 := { s with final_message_id := some mid }
      let ud2 := { ud with sessions := ains sid s2 ud.sessions }
      let ekb := build_post_share_keyboard s2
      let txt := "You can share it or post it to a group/channel."
      match t.sendMsg s.chat_id txt with
      | .ok _ => ⟨ud2, inv, [c1, .send s.chat_id txt (some ekb)], none⟩
      | .error e => ⟨ud2, inv, [c1, .send s.chat_id txt (some ekb)], some e⟩

/-- The `post` branch: flag the session, set the store's awaiting-post
pointer, and prompt for a destination. -/
def cbPost (sid : String) (s : Session) (t : Transport)
    (ud : UserData) (inv : Invites) : HRes :=
  let s2 := { s with awaiting_post := true }
  let ud2 := { ud with sessions := ains sid s2 ud.sessions,
                       awaiting_post_session_id := some sid }
  let txt := "Please send the channel/group ID or forward a message from that channel/group."
  match t.sendMsg s.chat_id txt with
  | .ok _ => ⟨ud2, inv, [.send s.chat_id txt none], none⟩
  | .error e => ⟨ud2, inv, [.send s.chat_id txt none], some e⟩

/-- `str(e)` of the `NameError` raised by the invite-record statement:
the module defines `invite_links_button_bot` (its comment: "Global
storage for created invite links"), but the statement
`invite_links[int(dest)] = (title, new_invite.invite_link)` names the
undefined `invite_links`.  (Quotes of the Python message are dropped.) -/
def nameErrorInviteLinks : String := "name invite_links is not defined"

/-- The `except Exception` clause of `post_confirm` yes: report the
failure, then (when the report itself succeeds) fall through to the
cleanup `del sessions[session_id]`; if the report send raises, the
exception propagates and the cleanup is skipped. -/
def postExceptPath (sid : String) (s : Session) (t : Transport)
    (ud : UserData) (inv : Invites) (calls : List TCall) (e : String) : HRes :=
  let msg := "Failed to post message: " ++ e
  match t.sendMsg s.chat_id msg with
  | .ok _ => ⟨{ ud with sessions := aerase sid ud.sessions }, inv,
      calls ++ [.send s.chat_id msg none], none⟩
  | .error e2 => ⟨ud, inv, calls ++ [.send s.chat_id msg none], some e2⟩

/-- The `post_confirm` branch.  The yes-decision runs the posting,
success notification, invite-link creation, title lookup and record
inside one try block; the record step always raises `NameError` (see
`nameErrorInviteLinks`), so on every path the except clause reports and
the invite table is left unchanged. -/
def cbPostConfirm (data : List String) (sid : String) (s : Session)
    (t : Transport) (ud : UserData) (inv : Invites) : HRes :=
  if data.length < 4 then ⟨ud, inv, [], none⟩
  else
    let decision := data.getD 3 ""
    if decision = "yes" then
      if data.length < 5 then ⟨ud, inv, [], none⟩
      else
        let dest := data.getD 4 ""
        match pyInt dest with
        | none =>
          postExceptPath sid s t ud inv []
            ("invalid literal for int with base 10: " ++ dest)
        | some d =>
          let fkb := build_final_keyboard s
          let c1 : TCall := .copy d s.chat_id s.original_message_id fkb
          match t.copyMsg d s.chat_id s.original_message_id with
          | .error e => postExceptPath sid s t ud inv [c1] e
          | .ok _ =>
            let c2 : TCall := .send s.chat_id "Message posted successfully!" none
            match t.sendMsg s.chat_id "Message posted successfully!" with
            | .error e => postExceptPath sid s t ud inv [c1, c2] e
            | .ok _ =>
              match t.createInvite d with
              | .error e => postExceptPath sid s t ud inv [c1, c2, .invite d] e
              | .ok _link =>
                match t.getChat d with
                | .error e =>
                  postExceptPath sid s t ud inv [c1, c2, .invite d, .getChat d] e
                | .ok titleOpt =>
                  let _title :=
                    match titleOpt with
                    | some ti => if ti = "" then "Unknown Title" else ti
                    | none => "Unknown Title"
                  postExceptPath sid s t ud inv [c1, c2, .invite d, .getChat d]
                    nameErrorInviteLinks
    else if decision = "no" then
      match t.sendMsg s.chat_id "Posting cancelled." with
      | .ok _ => ⟨{ ud with sessions := aerase sid ud.sessions }, inv,
          [.send s.chat_id "Posting cancelled." none], none⟩
      | .error e => ⟨ud, inv, [.send s.chat_id "Posting cancelled." none], some e⟩
    else ⟨ud, inv, [], none⟩

/-- The callback-query handler: answer the query, parse
`"session:<id>:<action>[:<extra>]"`, look the session up in this user's
store, and dispatch. -/
def button_callback (priv : Bool) (cbdata : String) (t : Transport)
    (ud : UserData) (inv : Invites) : HRes :=
  if priv = false then ⟨ud, inv, [], none⟩
  else
    match t.answerCb with
    | .error e => ⟨ud, inv, [.answerCb], some e⟩
    | .ok _ =>
      let data := splitOnChar ':' cbdata
      if data.length < 3 ∨ data.getD 0 "" ≠ "session" then ⟨ud, inv, [.answerCb], none⟩
      else
        let sid := data.getD 1 ""
        let action := data.getD 2 ""
        match alook sid ud.sessions with
        | none =>
          match t.editMsgText "Session not found." with
          | .ok _ => ⟨ud, inv, [.answerCb, .editText "Session not found."], none⟩
          | .error e => ⟨ud, inv, [.answerCb, .editText "Session not found."], some e⟩
        | some s =>
          let r :=
            if action = "add_to_row" ∨ action = "new_row" then
              cbAddNew (action = "add_to_row") data sid s t ud inv
            else if action = "done" then cbDone sid s t ud inv
            else if action = "post" then cbPost sid s t ud inv
            else if action = "post_confirm" then cbPostConfirm data sid s t ud inv
            else ⟨ud, inv, [], none⟩
          { r with calls := .answerCb :: r.calls }

/-! ### `button_info_handler` -/

/-- Reply sent when neither a forwarded chat nor text is available as a
destination; the awaiting-post pointer is left in place. -/
def msgInvalidInput (t : Transport) (ud : UserData) (inv : Invites) : HRes :=
  let msg := "Invalid input for channel/group ID."
  match t.replyText msg with
  | .ok _ => ⟨ud, inv, [.reply msg none none], none⟩
  | .error e => ⟨ud, inv, [.reply msg none none], some e⟩

/-- Admin check and confirmation prompt of the destination flow.  A
check error or a non-admin status replies, pops the awaiting-post
pointer and resets the session's `awaiting_post` flag; an admin status
replies with the yes/no keyboard (as a reply to `final_message_id`) and
pops only the pointer.  In each case the reply precedes the state
change, so a raised reply skips it. -/
def msgAdminCheck (m : Msg) (d : Int) (sid : String) (s : Session)
    (t : Transport) (ud : UserData) (inv : Invites) : HRes :=
  let cm : TCall := .member d m.user_id
  match t.getChatMember d m.user_id with
  | .error e =>
    let msg := "Error checking admin status: " ++ e
    match t.replyText msg with
    | .error e2 => ⟨ud, inv, [cm, .reply msg none none], some e2⟩
    | .ok _ =>
      let s2 := { s with awaiting_post := false }
      ⟨{ ud with sessions := ains sid s2 ud.sessions,
                 awaiting_post_session_id := none }, inv,
        [cm, .reply msg none none], none⟩
  | .ok status =>
    if status ≠ "administrator" ∧ status ≠ "creator" then
      let msg := "You are not an admin in that channel/group."
      match t.replyText msg with
      | .error e2 => ⟨ud, inv, [cm, .reply msg none none], some e2⟩
      | .ok _ =>
        let s2 := { s with awaiting_post := false }
        ⟨{ ud with sessions := ains sid s2 ud.sessions,
                   awaiting_post_session_id := none }, inv,
          [cm, .reply msg none none], none⟩
    else
      let kb := build_yes_no_keyboard s d
      let msg := "Do you want to post the final message to channel/group "
        ++ toString d ++ "?"
      match t.replyText msg with
      | .error e => ⟨ud, inv, [cm, .reply msg (some kb) s.final_message_id], some e⟩
      | .ok _ =>
        ⟨{ ud with awaiting_post_session_id := none }, inv,
          [cm, .reply msg (some kb) s.final_message_id], none⟩

/-- The awaiting-post-destination branch: resolve a destination from the
forwarded chat if present, else parse the text as an integer (an
unparsable non-empty text replies "Invalid channel/group ID. It should
be numeric." and leaves all state unchanged), then run the admin
check. -/
def msgPostDest (m : Msg) (sid : String) (s : Session) (t : Transport)
    (ud : UserData) (inv : Invites) : HRes :=
  match m.forward_from_chat with
  | some cid => msgAdminCheck m cid sid s t ud inv
  | none =>
    match m.text with
    | some txt =>
      if txt = "" then msgInvalidInput t ud inv
      else
        match pyInt (pyStrip txt) with
        | none =>
          let msg := "Invalid channel/group ID. It should be numeric."
          match t.replyText msg with
          | .ok _ => ⟨ud, inv, [.reply msg none none], none⟩
          | .error e => ⟨ud, inv, [.reply msg none none], some e⟩
        | some d => msgAdminCheck m d sid s t ud inv
    | none => msgInvalidInput t ud inv

/-- Tail of a successful button addition: clear the session's pending
input, pop the store pointer, re-render the editing keyboard (recording
`last_message_id` on success) and acknowledge. -/
def msgAppendDone (sid : String) (sMut : Session) (t : Transport)
    (ud : UserData) (inv : Invites) : HRes :=
  let s2 := { sMut with awaiting_button_info := false, target_row := none }
  let ud2 := { ud with sessions := ains sid s2 ud.sessions,
                       awaiting_session_id := none }
  let kb := build_editing_keyboard s2
  let c1 : TCall := .copy s2.chat_id s2.chat_id s2.original_message_id kb
  match t.copyMsg s2.chat_id s2.chat_id s2.original_message_id with
  | .error e => ⟨ud2, inv, [c1], some e⟩
  | .ok mid =>
    let s3 := { s2 with last_message_id := some mid }
    let ud3 := { ud2 with sessions := ains sid s3 ud2.sessions }
    let ack := "Button added! Use the + buttons to add more or Done ✅ to finalize."
    match t.replyText ack with
    | .ok _ => ⟨ud3, inv, [c1, .reply ack none none], none⟩
    | .error e => ⟨ud3, inv, [c1, .reply ack none none], some e⟩

/-- The awaiting-button-label branch: `text.strip()` (raising on a
non-text message), `rsplit(" ", 1)` into label and URL, whitelist
check, then append — to a new row when the target equals the row count,
else into the existing row by Python list indexing (negative indices
count from the end; anything outside `[-len, len)` raises
`IndexError`). -/
def msgButtonInfo (m : Msg) (sid : String) (s : Session) (t : Transport)
    (ud : UserData) (inv : Invites) : HRes :=
  match m.text with
  | none => ⟨ud, inv, [], some "AttributeError: NoneType has no attribute strip"⟩
  | some raw =>
    let text := pyStrip raw
    let parts := rsplitSpace1 text
    if parts.length < 2 then
      let msg := "Invalid format. Please send in format: <label> <URL>"
      match t.replyText msg with
      | .ok _ => ⟨ud, inv, [.reply msg none none], none⟩
      | .error e => ⟨ud, inv, [.reply msg none none], some e⟩
    else
      let label := parts.getD 0 ""
      let url := parts.getD 1 ""
      if is_valid_url url = false then
        let msg := "Invalid URL. It must start with http://, https:// or tg://"
        match t.replyText msg with
        | .ok _ => ⟨ud, inv, [.reply msg none none], none⟩
        | .error e => ⟨ud, inv, [.reply msg none none], some e⟩
      else
        match s.target_row with
        | none => ⟨ud, inv, [], some "TypeError: list indices must be integers"⟩
        | some i =>
          let n := s.inline_buttons.length
          if i = Int.ofNat n then
            msgAppendDone sid
              { s with inline_buttons := s.inline_buttons ++ [[⟨label, url⟩]] }
              t ud inv
          else if -(Int.ofNat n) ≤ i ∧ i < Int.ofNat n then
            let idx := (if i < 0 then Int.ofNat n + i else i).toNat
            let rows := s.inline_buttons.set idx
              ((s.inline_buttons.getD idx []) ++ [⟨label, url⟩])
            msgAppendDone sid { s with inline_buttons := rows } t ud inv
          else ⟨ud, inv, [], some "IndexError: list index out of range"⟩

/-- The plain-message handler: destination flow when the awaiting-post
pointer is set, else button-info flow when the awaiting-label pointer is
set (a pointer to a vanished session is silently popped), else a new
session via `start_message`. -/
def button_info_handler (m : Msg) (suffix : String) (t : Transport)
    (ud : UserData) (inv : Invites) : HRes :=
  if m.chat_private = false then ⟨ud, inv, [], none⟩
  else
    match ud.awaiting_post_session_id with
    | some sid =>
      match alook sid ud.sessions with
      | none => ⟨{ ud with awaiting_post_session_id := none }, inv, [], none⟩
      | some s => msgPostDest m sid s t ud inv
    | none =>
      match ud.awaiting_session_id with
      | some sid =>
        match alook sid ud.sessions with
        | none => ⟨{ ud with awaiting_session_id := none }, inv, [], none⟩
        | some s => msgButtonInfo m sid s t ud inv
      | none => start_message m suffix t ud inv

/-! ### `inline_query_handler` -/

/-- The inline ("Share") query handler: only `share_<session id>`
queries are recognized; an unknown id (in this user's store) produces no
result at all. -/
def inline_query_handler (q : String) (t : Transport)
    (ud : UserData) (inv : Invites) : HRes :=
  if strHasPrefix "share_" q = false then ⟨ud, inv, [], none⟩
  else
    let sid := String.mk (q.data.drop 6)
    match alook sid ud.sessions with
    | none => ⟨ud, inv, [], none⟩
    | some s =>
      let content := if s.text = "" then "No text content" else s.text
      let kb := build_final_keyboard s
      match t.answerInline with
      | .ok _ => ⟨ud, inv, [.answerInline content kb], none⟩
      | .error e => ⟨ud, inv, [.answerInline content kb], some e⟩

/-! ### Event step relation -/

/-- One inbound event of a single user's flow, carrying its transport
outcomes and (for messages) the fresh-id suffix the uuid oracle
produced. -/
inductive Ev where
  | msg (m : Msg) (suffix : String) (t : Transport)
  | cb (priv : Bool) (data : String) (t : Transport)
  | inq (q : String) (t : Transport)

/-- Global state of one user's flow: the user data plus the external
invite table. -/
structure GState where
  ud : UserData
  inv : Invites
deriving Repr

/-- Dispatch one event to its registered handler. -/
def stepEv (g : GState) : Ev → HRes
  | .msg m suffix t => button_info_handler m suffix t g.ud g.inv
  | .cb priv d t => button_callback priv d t g.ud g.inv
  | .inq q t => inline_query_handler q t g.ud g.inv

/-- The state left behind by one event (errors are logged by the
application's error handler; state changes made before a raise are
kept). -/
def applyEv (g : GState) (e : Ev) : GState :=
  let r := stepEv g e
  ⟨r.ud, r.inv⟩

/-- Run a sequence of inbound events from a state. -/
def runEvs : GState → List Ev → GState :=
  List.foldl applyEv

/-- The initial state: empty user data, empty invite table. -/
def g0 : GState := ⟨{}, []⟩

/-! ### Multi-user wrappers

`context.user_data` is keyed by the interacting user; the invite table
is module-global.  These wrappers run one user's handler inside the
full per-user map. -/

/-- The user data of `u` (created lazily, so absent means empty). -/
def udOf (us : List (Int × UserData)) (u : Int) : UserData :=
  (alook u us).getD {}

/-- A callback query issued by user `u` against the whole system. -/
def multiCb (us : List (Int × UserData)) (inv : Invites) (u : Int)
    (priv : Bool) (d : String) (t : Transport) :
    List (Int × UserData) × Invites × HRes :=
  let r := button_callback priv d t (udOf us u) inv
  (ains u r.ud us, r.inv, r)

/-- An inline query issued by user `u` against the whole system. -/
def multiInq (us : List (Int × UserData)) (inv : Invites) (u : Int)
    (q : String) (t : Transport) :
    List (Int × UserData) × Invites × HRes :=
  let r := inline_query_handler q t (udOf us u) inv
  (ains u r.ud us, r.inv, r)

/-! ### Concrete fixtures used by closed theorems and witnesses -/

/-- A finalized session with one button row, in the posting flow. -/
def sessA : Session where
  session_id := "s1"
  chat_id := 55
  text := "Hello"
  inline_buttons := [[⟨"Go", "https://go.dev"⟩]]
  awaiting_button_info := false
  target_row := none
  last_message_id := some 1000
  is_media := false
  original_message_id := 7
  final_message_id := some 1001
  awaiting_post := true
  post_channel := none

/-- A store holding `sessA` under id `"s1"`. -/
def udA : UserData where
  sessions := [("s1", sessA)]
  awaiting_session_id := none
  awaiting_post_session_id := none

/-- `udA` with the awaiting-post pointer aimed at `"s1"`. -/
def udApost : UserData := { udA with awaiting_post_session_id := some "s1" }

/-- `sessA` marked as awaiting a button label targeting a new row. -/
def sessAlabel : Session :=
  { sessA with awaiting_button_info := true, target_row := some 1, awaiting_post := false }

/-- `udA` with the awaiting-button-label pointer aimed at `"s1"` and the
session marked accordingly (target: new row). -/
def udAlabel : UserData where
  sessions := [("s1", sessAlabel)]
  awaiting_session_id := some "s1"
  awaiting_post_session_id := none

/-- A private text message fixture. -/
def msgTxt (txt : String) : Msg where
  message_id := 9
  chat_id := 55
  chat_private := true
  user_id := 77
  text := some txt
  caption := none
  forward_date := false
  forward_from_chat := none
  reply_markup := []

/-- A transport whose `send_message` always raises. -/
def badSendTransport : Transport :=
  { okTransport with sendMsg := fun _ _ => .error "network down" }

/-! ## Claim C1 -/

/-- C1: a `confirmPost(yes, destinationId)` on a stored session, with
every transport call succeeding, does re-emit the content with the
final keyboard into the destination, notify the owner of success, and
request an invite link — but it never records `(title, link)` in the
invite-link table: the recording statement names the undefined
`invite_links` (the table is `invite_links_button_bot`), so it raises
`NameError` inside the try block, the owner receives a spurious
failure report, and the table is left empty. -/
theorem c1_invite_record_never_written :
    (button_callback true "session:s1:post_confirm:yes:-100777" okTransport udA []).inv = []
    ∧ TCall.copy (-100777) 55 7 (build_final_keyboard sessA)
        ∈ (button_callback true "session:s1:post_confirm:yes:-100777" okTransport udA []).calls
    ∧ TCall.send 55 "Message posted successfully!" none
        ∈ (button_callback true "session:s1:post_confirm:yes:-100777" okTransport udA []).calls
    ∧ TCall.invite (-100777)
        ∈ (button_callback true "session:s1:post_confirm:yes:-100777" okTransport udA []).calls
    ∧ TCall.getChat (-100777)
        ∈ (button_callback true "session:s1:post_confirm:yes:-100777" okTransport udA []).calls
    ∧ TCall.send 55 ("Failed to post message: " ++ nameErrorInviteLinks) none
        ∈ (button_callback true "session:s1:post_confirm:yes:-100777" okTransport udA []).calls
    ∧ alook "s1" (button_callback true "session:s1:post_confirm:yes:-100777" okTransport udA []).ud.sessions = none
    ∧ (button_callback true "session:s1:post_confirm:yes:-100777" okTransport udA []).err = none := by
  decide

/-! ## Claim C3 -/

/-- C3 counterexample: an `onFreeText` while the awaiting-destination
pointer is set, with no forwarded chat and text `"abc"` that does not
parse as an integer, reports the error but leaves the awaiting pointer
set and the session's `awaiting_post` flag true — the post-flow state
is *not* cleared, contradicting the claim. -/
theorem c3_invalid_destination_keeps_state :
    (button_info_handler (msgTxt "abc") "u1" okTransport udApost []).ud = udApost
    ∧ udApost.awaiting_post_session_id = some "s1"
    ∧ (alook "s1" udApost.sessions).map Session.awaiting_post = some true
    ∧ (button_info_handler (msgTxt "abc") "u1" okTransport udApost []).calls
        = [TCall.reply "Invalid channel/group ID. It should be numeric." none none] := by
  decide

/-- C3 amended: when the awaiting-destination pointer resolves to an
existing session, no forwarded chat reference is present, and the
non-empty text does not parse as an integer, the handler reports
"Invalid channel/group ID. It should be numeric." and leaves the whole
state (pointer, session, invite table) unchanged — the pending input is
retried, not reset; restarting `startPost` is not required. -/
theorem c3_invalid_destination_reports_and_retries
    (m : Msg) (suffix : String) (t : Transport) (ud : UserData) (inv : Invites)
    (sid : String) (s : Session) (txt : String)
    (hpriv : m.chat_private = true)
    (hptr : ud.awaiting_post_session_id = some sid)
    (hlook : alook sid ud.sessions = some s)
    (hfwd : m.forward_from_chat = none)
    (htxt : m.text = some txt) (hne : txt ≠ "")
    (hparse : pyInt (pyStrip txt) = none) :
    (button_info_handler m suffix t ud inv).ud = ud
    ∧ (button_info_handler m suffix t ud inv).inv = inv
    ∧ (button_info_handler m suffix t ud inv).calls
        = [TCall.reply "Invalid channel/group ID. It should be numeric." none none] := by
  unfold button_info_handler msgPostDest
  simp only [hpriv, hptr, hlook, hfwd, htxt, hparse, Bool.true_eq_false, if_false,
    if_neg hne]
  cases t.replyText "Invalid channel/group ID. It should be numeric." <;>
    exact ⟨rfl, rfl, rfl⟩

/-- C3 witness: the amended statement at the concrete fixture. -/
theorem c3_retry_witness :
    (button_info_handler (msgTxt "abc") "u1" okTransport udApost []).ud = udApost
    ∧ (button_info_handler (msgTxt "abc") "u1" okTransport udApost []).calls
        = [TCall.reply "Invalid channel/group ID. It should be numeric." none none] :=
  ⟨(c3_invalid_destination_reports_and_retries (msgTxt "abc") "u1" okTransport udApost []
      "s1" sessA "abc" (by decide) (by decide) (by decide) (by decide) (by decide)
      (by decide) (by decide)).1,
   (c3_invalid_destination_reports_and_retries (msgTxt "abc") "u1" okTransport udApost []
      "s1" sessA "abc" (by decide) (by decide) (by decide) (by decide) (by decide)
      (by decide) (by decide)).2.2⟩

/-! ## Claim C8 -/

/-- A store whose awaiting-post pointer refers to a vanished session. -/
def udStalePtr : UserData where
  sessions := []
  awaiting_session_id := none
  awaiting_post_session_id := some "zz"

/-- C8 counterexample: an `onFreeText` arriving while the
awaiting-post-destination pointer is set (but its session no longer
exists) terminates normally with *no* transport call at all — neither a
success acknowledgment nor an error message — so the claim's "every
onFreeText event arriving while a pointer is set yields either a
success acknowledgment or an error message" is false; the pointer is
silently dropped. -/
theorem c8_silent_pointer_cleanup :
    udStalePtr.awaiting_post_session_id = some "zz"
    ∧ (button_info_handler (msgTxt "123") "u1" okTransport udStalePtr []).calls = []
    ∧ (button_info_handler (msgTxt "123") "u1" okTransport udStalePtr []).err = none
    ∧ (button_info_handler (msgTxt "123") "u1" okTransport udStalePtr []).ud.awaiting_post_session_id
        = none := by
  decide

/-- C8 amended: an `onFreeText` event arriving while a pending-input
pointer is set either attempts at least one user-visible transport
call, or terminates with an uncaught exception (which the application
error handler only logs), or is the silent-cleanup case in which the
pointer in force refers to a session that no longer exists. -/
theorem c8_pending_text_acknowledged_or_stale
    (m : Msg) (suffix : String) (t : Transport) (ud : UserData) (inv : Invites)
    (hpriv : m.chat_private = true)
    (hptr : ud.awaiting_post_session_id ≠ none ∨ ud.awaiting_session_id ≠ none) :
    (button_info_handler m suffix t ud inv).calls ≠ []
    ∨ (button_info_handler m suffix t ud inv).err ≠ none
    ∨ (∃ sid, ud.awaiting_post_session_id = some sid ∧ alook sid ud.sessions = none)
    ∨ (ud.awaiting_post_session_id = none
        ∧ ∃ sid, ud.awaiting_session_id = some sid ∧ alook sid ud.sessions = none) := by
  unfold button_info_handler msgPostDest msgAdminCheck msgInvalidInput
    msgButtonInfo msgAppendDone
  rw [hpriv]
  simp only [Bool.true_eq_false, if_false]
  split
  · -- awaiting-post pointer set
    rename_i sid hpost
    split
    · rename_i hlook
      exact Or.inr (Or.inr (Or.inl ⟨sid, hpost, hlook⟩))
    · repeat' split
      all_goals refine Or.inl ?_
      all_goals simp
  · -- no awaiting-post pointer
    rename_i hpost
    split
    · -- awaiting-label pointer set
      rename_i sid hlbl
      split
      · rename_i hlook
        exact Or.inr (Or.inr (Or.inr ⟨hpost, sid, hlbl, hlook⟩))
      · repeat' split
        all_goals first
          | (refine Or.inl ?_; simp; done)
          | (refine Or.inr (Or.inl ?_); simp; done)
    · rename_i hlbl
      rw [hpost, hlbl] at hptr
      simp at hptr

/-- C8 witness: the amended statement at a concrete pending-label
input. -/
theorem c8_pending_text_witness :
    (button_info_handler (msgTxt "NoSpace") "u1" okTransport udAlabel []).calls ≠ []
    ∨ (button_info_handler (msgTxt "NoSpace") "u1" okTransport udAlabel []).err ≠ none
    ∨ (∃ sid, udAlabel.awaiting_post_session_id = some sid
        ∧ alook sid udAlabel.sessions = none)
    ∨ (udAlabel.awaiting_post_session_id = none
        ∧ ∃ sid, udAlabel.awaiting_session_id = some sid
            ∧ alook sid udAlabel.sessions = none) :=
  c8_pending_text_acknowledged_or_stale (msgTxt "NoSpace") "u1" okTransport udAlabel []
    (by decide) (Or.inr (by decide))

/-! ## Claim C2 -/

/-- C2 counterexample: `confirmPost(no)` on a stored session, when the
transport raises on the cancellation notice, propagates the exception
and the session is *not* removed from the store — so the claim's "in
all cases — yes with success, yes with failure, or no — the session is
removed" is false. -/
theorem c2_failed_cancel_notice_keeps_session :
    (button_callback true "session:s1:post_confirm:no" badSendTransport udA []).err
        = some "network down"
    ∧ alook "s1" (button_callback true "session:s1:post_confirm:no" badSendTransport udA []).ud.sessions
        = some sessA := by
  decide

/-- C2 amended: on an existing session (unique keys) and a transport
whose owner-directed notification sends succeed: the yes-branch catches
every sub-step failure (nothing is re-thrown), reports
"Failed to post message: …" to the owner, and removes the session; the
no-branch notifies cancellation and removes the session; and a second
`confirmPost` with the same id then reports "Session not found.".
(When the notification send itself raises — outside the try block — the
exception propagates and the session survives, per the
counterexample.) -/
theorem c2_confirm_cleanup_when_notices_deliver
    (ud : UserData) (inv : Invites) (s : Session) (t : Transport)
    (hnd : (ud.sessions.map Prod.fst).Nodup)
    (hlook : alook "s1" ud.sessions = some s)
    (hans : t.answerCb = .ok ())
    (hsend : ∀ txt, ∃ k, t.sendMsg s.chat_id txt = .ok k) :
    ((button_callback true "session:s1:post_confirm:yes:42" t ud inv).err = none
     ∧ alook "s1" (button_callback true "session:s1:post_confirm:yes:42" t ud inv).ud.sessions = none
     ∧ ∃ e, TCall.send s.chat_id ("Failed to post message: " ++ e) none
         ∈ (button_callback true "session:s1:post_confirm:yes:42" t ud inv).calls)
    ∧ ((button_callback true "session:s1:post_confirm:no" t ud inv).err = none
     ∧ alook "s1" (button_callback true "session:s1:post_confirm:no" t ud inv).ud.sessions = none
     ∧ TCall.send s.chat_id "Posting cancelled." none
         ∈ (button_callback true "session:s1:post_confirm:no" t ud inv).calls)
    ∧ (∀ t2 : Transport, t2.answerCb = .ok () →
       TCall.editText "Session not found."
         ∈ (button_callback true "session:s1:post_confirm:yes:42" t2
              (button_callback true "session:s1:post_confirm:yes:42" t ud inv).ud
              (button_callback true "session:s1:post_confirm:yes:42" t ud inv).inv).calls) := by
  have hyes :
      (button_callback true "session:s1:post_confirm:yes:42" t ud inv).err = none
      ∧ alook "s1" (button_callback true "session:s1:post_confirm:yes:42" t ud inv).ud.sessions = none
      ∧ ∃ e, TCall.send s.chat_id ("Failed to post message: " ++ e) none
          ∈ (button_callback true "session:s1:post_confirm:yes:42" t ud inv).calls := by
    simp +decide [button_callback, hans, hlook, cbPostConfirm,
      show splitOnChar ':' "session:s1:post_confirm:yes:42"
        = ["session", "s1", "post_confirm", "yes", "42"] from rfl,
      show pyInt "42" = some 42 from rfl]
    cases hc : t.copyMsg 42 s.chat_id s.original_message_id with
    | error e =>
      obtain ⟨k, hk⟩ := hsend ("Failed to post message: " ++ e)
      simp only [postExceptPath, hk]
      exact ⟨trivial, alook_aerase_self hnd, e, by simp⟩
    | ok mid =>
      obtain ⟨k1, hk1⟩ := hsend "Message posted successfully!"
      simp only [hk1]
      cases hi : t.createInvite 42 with
      | error e =>
        obtain ⟨k, hk⟩ := hsend ("Failed to post message: " ++ e)
        simp only [postExceptPath, hk]
        exact ⟨trivial, alook_aerase_self hnd, e, by simp⟩
      | ok link =>
        cases hg : t.getChat 42 with
        | error e =>
          obtain ⟨k, hk⟩ := hsend ("Failed to post message: " ++ e)
          simp only [postExceptPath, hk]
          exact ⟨trivial, alook_aerase_self hnd, e, by simp⟩
        | ok titleOpt =>
          obtain ⟨k, hk⟩ := hsend ("Failed to post message: " ++ nameErrorInviteLinks)
          simp only [postExceptPath, hk]
          exact ⟨trivial, alook_aerase_self hnd, nameErrorInviteLinks, by simp⟩
  refine ⟨hyes, ?_, ?_⟩
  · obtain ⟨k, hk⟩ := hsend "Posting cancelled."
    simp +decide [button_callback, hans, hlook, cbPostConfirm, hk,
      show splitOnChar ':' "session:s1:post_confirm:no"
        = ["session", "s1", "post_confirm", "no"] from rfl]
    exact alook_aerase_self hnd
  · intro t2 hans2
    have hnone := hyes.2.1
    generalize hgen : (button_callback true "session:s1:post_confirm:yes:42" t ud inv) = r at hnone
    simp +decide [button_callback, hans2, hnone,
      show splitOnChar ':' "session:s1:post_confirm:yes:42"
        = ["session", "s1", "post_confirm", "yes", "42"] from rfl]
    cases t2.editMsgText "Session not found." <;> simp

/-- C2 witness: the amended statement at the concrete fixture with an
all-succeeding transport. -/
theorem c2_confirm_cleanup_witness :
    alook "s1" (button_callback true "session:s1:post_confirm:no" okTransport udA []).ud.sessions
      = none
    ∧ (button_callback true "session:s1:post_confirm:yes:42" okTransport udA []).err = none :=
  ⟨(c2_confirm_cleanup_when_notices_deliver udA [] sessA okTransport (by decide) (by decide)
      rfl (fun txt => ⟨1001, rfl⟩)).2.1.2.1,
   (c2_confirm_cleanup_when_notices_deliver udA [] sessA okTransport (by decide) (by decide)
      rfl (fun txt => ⟨1001, rfl⟩)).1.1⟩

/-! ## Claim C7 -/

/-- C7: on an existing session, `done` is rejected — "No URL buttons
created yet." is sent, no state changes, and no render is attempted —
exactly when `buttonRows` is empty; when it is non-empty no rejection
text is sent, a final render of the original content is attempted, and
(when the render returns `mid`) `final_message_id := mid` is recorded,
the Share/Post actions message is sent, and the session always remains
in the store. -/
theorem c7_done_rejected_iff_no_buttons
    (ud : UserData) (inv : Invites) (s : Session) (t : Transport)
    (hlook : alook "s1" ud.sessions = some s)
    (hans : t.answerCb = .ok ()) :
    (s.inline_buttons = [] →
      (button_callback true "session:s1:done" t ud inv).ud = ud
      ∧ (button_callback true "session:s1:done" t ud inv).inv = inv
      ∧ TCall.send s.chat_id "No URL buttons created yet." none
          ∈ (button_callback true "session:s1:done" t ud inv).calls
      ∧ ∀ a b c kb, TCall.copy a b c kb ∉ (button_callback true "session:s1:done" t ud inv).calls)
    ∧ (s.inline_buttons ≠ [] →
      (∀ ch txt kb, TCall.send ch txt kb ∈ (button_callback true "session:s1:done" t ud inv).calls
          → txt ≠ "No URL buttons created yet.")
      ∧ TCall.copy s.chat_id s.chat_id s.original_message_id (build_final_keyboard s)
          ∈ (button_callback true "session:s1:done" t ud inv).calls
      ∧ ∀ mid, t.copyMsg s.chat_id s.chat_id s.original_message_id = .ok mid →
          alook "s1" (button_callback true "session:s1:done" t ud inv).ud.sessions
            = some { s with final_message_id := some mid }
          ∧ TCall.send s.chat_id "You can share it or post it to a group/channel."
              (some (build_post_share_keyboard { s with final_message_id := some mid }))
            ∈ (button_callback true "session:s1:done" t ud inv).calls)
    ∧ alook "s1" (button_callback true "session:s1:done" t ud inv).ud.sessions ≠ none := by
  have hsplit : splitOnChar ':' "session:s1:done" = ["session", "s1", "done"] := rfl
  refine ⟨?_, ?_, ?_⟩
  · intro hempty
    simp +decide [button_callback, hans, hlook, cbDone, hempty, hsplit]
    cases t.sendMsg s.chat_id "No URL buttons created yet." <;> simp
  · intro hne
    simp +decide [button_callback, hans, hlook, cbDone, hne, hsplit]
    cases hc : t.copyMsg s.chat_id s.chat_id s.original_message_id with
    | error e => simp [hc]
    | ok mid2 =>
      simp only [hc]
      cases t.sendMsg s.chat_id "You can share it or post it to a group/channel." <;>
        simp [alook_ains_self]
      all_goals intro ch txt kb _ h2 _
      all_goals subst h2
      all_goals decide
  · by_cases hempty : s.inline_buttons = []
    · simp +decide [button_callback, hans, hlook, cbDone, hempty, hsplit]
      cases t.sendMsg s.chat_id "No URL buttons created yet." <;> simp [hlook]
    · simp +decide [button_callback, hans, hlook, cbDone, hempty, hsplit]
      cases t.copyMsg s.chat_id s.chat_id s.original_message_id with
      | error e => simp [hlook]
      | ok mid2 =>
        cases t.sendMsg s.chat_id "You can share it or post it to a group/channel." <;>
          simp [alook_ains_self]

/-- C7 witness: the statement at the concrete fixture (non-empty rows)
and at the same fixture with the rows emptied. -/
theorem c7_done_witness :
    alook "s1" (button_callback true "session:s1:done" okTransport udA []).ud.sessions
      = some { sessA with final_message_id := some 1000 }
    ∧ (button_callback true "session:s1:done" okTransport
        { udA with sessions := [("s1", { sessA with inline_buttons := [] })] } []).ud
      = { udA with sessions := [("s1", { sessA with inline_buttons := [] })] } :=
  ⟨((c7_done_rejected_iff_no_buttons udA [] sessA okTransport (by decide) rfl).2.1
      (by decide)).2.2 1000 rfl |>.1,
   ((c7_done_rejected_iff_no_buttons
      { udA with sessions := [("s1", { sessA with inline_buttons := [] })] } []
      { sessA with inline_buttons := [] } okTransport (by decide) rfl).1 (by decide)).1⟩

/-! ## Claim C9 -/

/-- C9: a callback payload below the minimum field count for its action
— fewer than 3 fields, a wrong tag, `add_to_row` without a parseable
row index, `post_confirm` without a decision, or a yes decision without
a destination — leaves the store, the pointers and the invite table
unchanged and terminates without an exception (given that the
query-answer and the possible "Session not found." edit succeed). -/
theorem c9_malformed_callback_noop
    (cbdata : String) (t : Transport) (ud : UserData) (inv : Invites)
    (hans : t.answerCb = .ok ())
    (hedit : t.editMsgText "Session not found." = .ok ())
    (hmal :
      (splitOnChar ':' cbdata).length < 3
      ∨ (splitOnChar ':' cbdata).getD 0 "" ≠ "session"
      ∨ ((splitOnChar ':' cbdata).getD 2 "" = "add_to_row"
          ∧ ((splitOnChar ':' cbdata).length < 4
             ∨ pyInt ((splitOnChar ':' cbdata).getD 3 "") = none))
      ∨ ((splitOnChar ':' cbdata).getD 2 "" = "post_confirm"
          ∧ ((splitOnChar ':' cbdata).length < 4
             ∨ ((splitOnChar ':' cbdata).getD 3 "" = "yes"
                ∧ (splitOnChar ':' cbdata).length < 5)))) :
    (button_callback true cbdata t ud inv).ud = ud
    ∧ (button_callback true cbdata t ud inv).inv = inv
    ∧ (button_callback true cbdata t ud inv).err = none := by
  unfold button_callback
  simp only [hans, Bool.true_eq_false, if_false]
  by_cases hg : (splitOnChar ':' cbdata).length < 3
      ∨ (splitOnChar ':' cbdata).getD 0 "" ≠ "session"
  · rw [if_pos hg]
    exact ⟨rfl, rfl, rfl⟩
  · rw [if_neg hg]
    cases hlk : alook ((splitOnChar ':' cbdata).getD 1 "") ud.sessions with
    | none =>
      simp [hedit]
    | some s =>
      simp only []
      rcases hmal with h1 | h1 | ⟨ha, hrest⟩ | ⟨ha, hrest⟩
      · exact absurd (Or.inl h1) hg
      · exact absurd (Or.inr h1) hg
      · rw [if_pos (Or.inl ha)]
        unfold cbAddNew
        rw [if_pos (by simp only [ha]; decide)]
        rcases hrest with hlen | hpy
        · rw [if_pos hlen]
          exact ⟨by trivial, by trivial, by trivial⟩
        · by_cases hl4 : (splitOnChar ':' cbdata).length < 4
          · rw [if_pos hl4]
            exact ⟨by trivial, by trivial, by trivial⟩
          · rw [if_neg hl4]
            simp only [hpy]
            exact ⟨by trivial, by trivial, by trivial⟩
      · rw [if_neg (by simp only [ha]; decide), if_neg (by simp only [ha]; decide),
          if_neg (by simp only [ha]; decide), if_pos ha]
        unfold cbPostConfirm
        rcases hrest with hlen | ⟨hyes, hlen5⟩
        · rw [if_pos hlen]
          exact ⟨by trivial, by trivial, by trivial⟩
        · by_cases hl4 : (splitOnChar ':' cbdata).length < 4
          · rw [if_pos hl4]
            exact ⟨by trivial, by trivial, by trivial⟩
          · rw [if_neg hl4, if_pos hyes, if_pos hlen5]
            exact ⟨by trivial, by trivial, by trivial⟩

/-- C9 witness: the statement at concrete malformed payloads. -/
theorem c9_malformed_witness :
    (button_callback true "session:s1:add_to_row" okTransport udA []).ud = udA
    ∧ (button_callback true "session:s1:post_confirm:yes" okTransport udA []).err = none :=
  ⟨(c9_malformed_callback_noop "session:s1:add_to_row" okTransport udA []
      rfl rfl (by decide)).1,
   (c9_malformed_callback_noop "session:s1:post_confirm:yes" okTransport udA []
      rfl rfl (by decide)).2.2⟩

/-! ## Claim C10 -/

/-- C10: a session id absent from user B's store behaves as not-found
for B — the callback reports "Session not found." and an inline share
query produces no result — regardless of any other user A's store: A's
user data is untouched by B's events, and B's handler outcome is the
same for any two system states agreeing on B's store. -/
theorem c10_session_lookup_scoped_per_user
    (us : List (Int × UserData)) (inv : Invites) (A B : Int) (t : Transport)
    (hAB : A ≠ B)
    (hB : alook "s1" (udOf us B).sessions = none)
    (hans : t.answerCb = .ok ())
    (hedit : t.editMsgText "Session not found." = .ok ()) :
    (TCall.editText "Session not found." ∈ (multiCb us inv B true "session:s1:done" t).2.2.calls
     ∧ (multiCb us inv B true "session:s1:done" t).2.2.ud = udOf us B
     ∧ (multiCb us inv B true "session:s1:done" t).2.1 = inv
     ∧ udOf (multiCb us inv B true "session:s1:done" t).1 A = udOf us A)
    ∧ ((multiInq us inv B "share_s1" t).2.2.calls = []
     ∧ udOf (multiInq us inv B "share_s1" t).1 A = udOf us A)
    ∧ (∀ us2 : List (Int × UserData), udOf us2 B = udOf us B →
       (multiCb us2 inv B true "session:s1:done" t).2.2
         = (multiCb us inv B true "session:s1:done" t).2.2
       ∧ (multiInq us2 inv B "share_s1" t).2.2 = (multiInq us inv B "share_s1" t).2.2) := by
  have hq : String.mk ("share_s1".data.drop 6) = "s1" := rfl
  have hcb : button_callback true "session:s1:done" t (udOf us B) inv
      = ⟨udOf us B, inv, [.answerCb, .editText "Session not found."], none⟩ := by
    simp +decide [button_callback, hans, hB, hedit,
      show splitOnChar ':' "session:s1:done" = ["session", "s1", "done"] from rfl]
  have hinq : inline_query_handler "share_s1" t (udOf us B) inv
      = ⟨udOf us B, inv, [], none⟩ := by
    simp +decide [inline_query_handler, hq, hB]
  refine ⟨?_, ?_, ?_⟩
  · refine ⟨?_, ?_, ?_, ?_⟩
    · simp [multiCb, hcb]
    · simp [multiCb, hcb]
    · simp [multiCb, hcb]
    · simp only [multiCb, hcb, udOf]
      rw [alook_ains_ne _ (Ne.symm hAB)]
  · refine ⟨?_, ?_⟩
    · simp [multiInq, hinq]
    · simp only [multiInq, hinq, udOf]
      rw [alook_ains_ne _ (Ne.symm hAB)]
  · intro us2 h2
    constructor
    · simp only [multiCb, h2]
    · simp only [multiInq, h2]

/-- C10 witness: user 1 holds `"s1"`, user 2 does not; a lookup of
`"s1"` under user 2 is not found and leaves user 1 intact. -/
theorem c10_scoped_witness :
    TCall.editText "Session not found."
      ∈ (multiCb [(1, udA)] [] 2 true "session:s1:done" okTransport).2.2.calls
    ∧ udOf (multiCb [(1, udA)] [] 2 true "session:s1:done" okTransport).1 1 = udOf [(1, udA)] 1 :=
  ⟨(c10_session_lookup_scoped_per_user [(1, udA)] [] 1 2 okTransport (by decide) (by decide)
      rfl rfl).1.1,
   (c10_session_lookup_scoped_per_user [(1, udA)] [] 1 2 okTransport (by decide) (by decide)
      rfl rfl).1.2.2.2⟩

/-! ## Claim C6 -/

theorem string_mk_data (s : String) : String.mk s.data = s := rfl

theorem breakAtRev_found (p : Char → Bool) (c : Char) (b : List Char)
    (hc : p c = true) :
    ∀ a : List Char, (∀ x ∈ a, p x = false) →
      breakAtRev p (a ++ c :: b) = some (a, b) := by
  intro a
  induction a with
  | nil => intro _; simp [breakAtRev, hc]
  | cons hd tl ih =>
    intro ha
    have hhd : p hd = false := ha hd (by simp)
    have htl := ih (fun x hx => ha x (by simp [hx]))
    simp [breakAtRev, hhd, htl]

theorem breakAtRev_none (p : Char → Bool) :
    ∀ l : List Char, (∀ x ∈ l, p x = false) → breakAtRev p l = none := by
  intro l
  induction l with
  | nil => intro _; simp [breakAtRev]
  | cons hd tl ih =>
    intro h
    have hhd : p hd = false := h hd (by simp)
    have htl := ih (fun x hx => h x (by simp [hx]))
    simp [breakAtRev, hhd, htl]

/-- `rsplit(" ", 1)` on `label ++ " " ++ url` with a space-free `url`
yields exactly `[label, url]` — the split really is at the *last* space. -/
theorem rsplitSpace1_append (label url : String) (hns : ' ' ∉ url.data) :
    rsplitSpace1 (label ++ " " ++ url) = [label, url] := by
  unfold rsplitSpace1
  have hdata : (label ++ " " ++ url).data = label.data ++ ' ' :: url.data := by
    rw [String.data_append, String.data_append]
    simp [List.append_assoc]
  rw [hdata]
  have hrev : (label.data ++ ' ' :: url.data).reverse
      = url.data.reverse ++ ' ' :: label.data.reverse := by
    simp
  rw [hrev, breakAtRev_found _ ' ' label.data.reverse (by decide) url.data.reverse
    (fun x hx => by
      simp only [List.mem_reverse] at hx
      simp only [decide_eq_false_iff_not]
      exact fun he => hns (he ▸ hx))]
  simp [string_mk_data]

/-- `rsplit(" ", 1)` on a space-free string returns the single field. -/
theorem rsplitSpace1_nospace (s : String) (h : ' ' ∉ s.data) :
    rsplitSpace1 s = [s] := by
  unfold rsplitSpace1
  rw [breakAtRev_none _ s.data.reverse (fun x hx => by
    simp only [List.mem_reverse] at hx
    simp only [decide_eq_false_iff_not]
    exact fun he => h (he ▸ hx))]

/-- C6 counterexample: with the awaiting-label pointer set, the input
`"Visit us\thttps://example.com"` contains whitespace (a tab) before a
valid URL, so the claimed last-whitespace split would accept it — the
spec-modelled split yields label `"Visit us"` and the whitelisted url
`"https://example.com"` — but the handler splits at the last *space*
(`rsplit(" ", 1)`), takes `"us\thttps://example.com"` as the url, and
rejects the input as an invalid URL, leaving the state unchanged. -/
theorem c6_tab_splits_differently :
    splitLastWsSpec "Visit us\thttps://example.com" = ["Visit us", "https://example.com"]
    ∧ is_valid_url "https://example.com" = true
    ∧ rsplitSpace1 "Visit us\thttps://example.com" = ["Visit", "us\thttps://example.com"]
    ∧ (button_info_handler (msgTxt "Visit us\thttps://example.com") "u1" okTransport udAlabel []).ud
        = udAlabel
    ∧ (button_info_handler (msgTxt "Visit us\thttps://example.com") "u1" okTransport udAlabel []).calls
        = [TCall.reply "Invalid URL. It must start with http://, https:// or tg://" none none] := by
  decide

/-- C6 amended: with the awaiting-label pointer resolving to a session,
the text is split at the last *space* character (U+0020), so
`"Visit us https://example.com"` yields label `"Visit us"` and url
`"https://example.com"`; a text whose stripped form contains no space —
even one containing other whitespace such as a tab — fails with the
invalid-format report, and the pending state (session `pendingInput`
and store pointer) is left unchanged so the user can retry. -/
theorem c6_label_url_last_space_split
    (m : Msg) (suffix : String) (t : Transport) (ud : UserData) (inv : Invites)
    (sid : String) (s : Session) (txt : String)
    (hpriv : m.chat_private = true)
    (hpost : ud.awaiting_post_session_id = none)
    (hptr : ud.awaiting_session_id = some sid)
    (hlook : alook sid ud.sessions = some s)
    (htxt : m.text = some txt) :
    (rsplitSpace1 "Visit us https://example.com" = ["Visit us", "https://example.com"]
      ∧ rsplitSpace1 "NoSpace" = ["NoSpace"])
    ∧ (' ' ∉ (pyStrip txt).data →
        (button_info_handler m suffix t ud inv).ud = ud
        ∧ (button_info_handler m suffix t ud inv).calls
            = [TCall.reply "Invalid format. Please send in format: <label> <URL>" none none])
    ∧ (∀ label url : String, pyStrip txt = label ++ " " ++ url → ' ' ∉ url.data →
        is_valid_url url = true →
        s.target_row = some (Int.ofNat s.inline_buttons.length) →
        ((alook sid (button_info_handler m suffix t ud inv).ud.sessions).map
            Session.inline_buttons)
          = some (s.inline_buttons ++ [[⟨label, url⟩]])) := by
  refine ⟨by decide, ?_, ?_⟩
  · intro hns
    unfold button_info_handler msgButtonInfo
    simp only [hpriv, hpost, hptr, hlook, htxt, Bool.true_eq_false, if_false,
      rsplitSpace1_nospace _ hns]
    cases t.replyText "Invalid format. Please send in format: <label> <URL>" <;>
      exact ⟨rfl, rfl⟩
  · intro label url hsplit hns hvalid htarget
    unfold button_info_handler msgButtonInfo msgAppendDone
    simp only [hpriv, hpost, hptr, hlook, htxt, Bool.true_eq_false, if_false,
      hsplit, rsplitSpace1_append label url hns, htarget]
    simp +decide [hvalid]
    cases t.copyMsg s.chat_id s.chat_id s.original_message_id with
    | error e => simp [alook_ains_self]
    | ok mid =>
      cases t.replyText "Button added! Use the + buttons to add more or Done ✅ to finalize." <;>
        simp [alook_ains_self]

/-- C6 witness: the amended statement at the concrete fixture, with the
documented example input actually appending the button. -/
theorem c6_split_witness :
    ((alook "s1" (button_info_handler (msgTxt "Visit us https://example.com") "u1"
        okTransport udAlabel []).ud.sessions).map Session.inline_buttons)
      = some ([[⟨"Go", "https://go.dev"⟩]] ++ [[⟨"Visit us", "https://example.com"⟩]]) :=
  (c6_label_url_last_space_split (msgTxt "Visit us https://example.com") "u1" okTransport
      udAlabel [] "s1" sessAlabel
      "Visit us https://example.com" (by decide) (by decide) (by decide) (by decide)
      (by decide)).2.2 "Visit us" "https://example.com" (by decide) (by decide) (by decide)
      (by decide)

/-! ## Claim C4 -/

/-- Every URL held in a session's button rows is whitelisted. -/
def sessUrlsOk (s : Session) : Prop :=
  ∀ row ∈ s.inline_buttons, ∀ b ∈ row, is_valid_url b.url = true

/-- Every session of a store satisfies the URL invariant. -/
def urlsOkUD (ud : UserData) : Prop :=
  ∀ p ∈ ud.sessions, sessUrlsOk p.2

/-- The extraction side condition of an event: buttons extracted from a
forwarded message carry whitelisted URLs (the handler itself does not
check them). -/
def evUrlsOk : Ev → Prop
  | .msg m _ _ => ∀ row ∈ extract_buttons m, ∀ b ∈ row, is_valid_url b.url = true
  | .cb _ _ _ => True
  | .inq _ _ => True

theorem forall_ains {P : Session → Prop} {l : List (String × Session)}
    {k : String} {v : Session} (h : ∀ p ∈ l, P p.2) (hv : P v) :
    ∀ p ∈ ains k v l, P p.2 := by
  intro p hp
  rcases mem_ains hp with he | hm
  · rw [he]; exact hv
  · exact h p hm

theorem forall_aerase {P : Session → Prop} {l : List (String × Session)}
    {k : String} (h : ∀ p ∈ l, P p.2) :
    ∀ p ∈ aerase k l, P p.2 :=
  fun p hp => h p (mem_aerase hp)

theorem sessOk_of_alook {P : Session → Prop} {ud : UserData} {sid : String}
    {s : Session} (h : ∀ p ∈ ud.sessions, P p.2)
    (hl : alook sid ud.sessions = some s) : P s :=
  h (sid, s) (alook_mem hl)

theorem sessUrlsOk_mkSession (m : Msg) (suffix : String)
    (buttons : List (List Btn))
    (hb : ∀ row ∈ buttons, ∀ b ∈ row, is_valid_url b.url = true) :
    sessUrlsOk (mkSession m suffix buttons) := hb

theorem sessUrlsOk_append_row {s : Session} {lb u : String}
    (hs : sessUrlsOk s) (hu : is_valid_url u = true) :
    sessUrlsOk { s with inline_buttons := s.inline_buttons ++ [[⟨lb, u⟩]] } := by
  intro row hr b hb
  rcases List.mem_append.mp hr with h1 | h1
  · exact hs row h1 b hb
  · simp only [List.mem_singleton] at h1
    subst h1
    simp only [List.mem_singleton] at hb
    subst hb
    exact hu

theorem sessUrlsOk_set_row {s : Session} {lb u : String} (idx : Nat)
    (hs : sessUrlsOk s) (hu : is_valid_url u = true) :
    sessUrlsOk { s with inline_buttons :=
      s.inline_buttons.set idx ((s.inline_buttons.getD idx []) ++ [⟨lb, u⟩]) } := by
  intro row hr b hb
  rcases List.mem_or_eq_of_mem_set hr with h1 | h1
  · exact hs row h1 b hb
  · subst h1
    rcases List.mem_append.mp hb with h2 | h2
    · by_cases hlt : idx < s.inline_buttons.length
      · have hmem : s.inline_buttons.getD idx [] ∈ s.inline_buttons := by
          rw [List.getD_eq_getElem?_getD]
          rw [List.getElem?_eq_getElem hlt]
          exact List.getElem_mem _
        exact hs _ hmem b h2
      · rw [List.getD_eq_default _ _ (Nat.le_of_not_lt hlt)] at h2
        cases h2
    · simp only [List.mem_singleton] at h2
      subst h2
      exact hu

theorem urlsOk_start_message (m : Msg) (suffix : String) (t : Transport)
    (ud : UserData) (inv : Invites) (h : urlsOkUD ud)
    (hm : ∀ row ∈ extract_buttons m, ∀ b ∈ row, is_valid_url b.url = true) :
    urlsOkUD (start_message m suffix t ud inv).ud := by
  have hmk : ∀ fwd : Bool,
      sessUrlsOk (mkSession m suffix (if fwd then extract_buttons m else [])) := by
    intro fwd
    cases fwd
    · exact sessUrlsOk_mkSession m suffix [] (by simp)
    · exact sessUrlsOk_mkSession m suffix (extract_buttons m) hm
  have hfwd : sessUrlsOk (mkSession m suffix (extract_buttons m)) :=
    sessUrlsOk_mkSession _ _ _ hm
  have hnil : sessUrlsOk (mkSession m suffix []) :=
    sessUrlsOk_mkSession _ _ _ (by simp)
  unfold start_message
  try dsimp only
  repeat' split
  all_goals first
    | exact h
    | exact forall_ains h hfwd
    | exact forall_ains h hnil
    | exact forall_ains (forall_ains h hfwd) hfwd
    | exact forall_ains (forall_ains h hnil) hnil

theorem urlsOk_cbSetTarget (i : Int) (sid : String) (s : Session) (t : Transport)
    (ud : UserData) (inv : Invites) (h : urlsOkUD ud) (hs : sessUrlsOk s) :
    urlsOkUD (cbSetTarget i sid s t ud inv).ud := by
  unfold cbSetTarget
  cases t.sendMsg s.chat_id promptBtnInfo <;> exact forall_ains h hs

theorem urlsOk_cbAddNew (isAdd : Bool) (data : List String) (sid : String)
    (s : Session) (t : Transport) (ud : UserData) (inv : Invites)
    (h : urlsOkUD ud) (hs : sessUrlsOk s) :
    urlsOkUD (cbAddNew isAdd data sid s t ud inv).ud := by
  unfold cbAddNew
  repeat' split
  all_goals first
    | exact h
    | exact urlsOk_cbSetTarget _ _ _ _ _ _ h hs

theorem urlsOk_cbDone (sid : String) (s : Session) (t : Transport)
    (ud : UserData) (inv : Invites) (h : urlsOkUD ud) (hs : sessUrlsOk s) :
    urlsOkUD (cbDone sid s t ud inv).ud := by
  unfold cbDone
  try dsimp only
  repeat' split
  all_goals first
    | exact h
    | exact forall_ains h hs

theorem urlsOk_cbPost (sid : String) (s : Session) (t : Transport)
    (ud : UserData) (inv : Invites) (h : urlsOkUD ud) (hs : sessUrlsOk s) :
    urlsOkUD (cbPost sid s t ud inv).ud := by
  unfold cbPost
  try dsimp only
  repeat' split
  all_goals exact forall_ains h hs

theorem urlsOk_postExceptPath (sid : String) (s : Session) (t : Transport)
    (ud : UserData) (inv : Invites) (calls : List TCall) (e : String)
    (h : urlsOkUD ud) :
    urlsOkUD (postExceptPath sid s t ud inv calls e).ud := by
  unfold postExceptPath
  try dsimp only
  repeat' split
  all_goals first
    | exact h
    | exact forall_aerase h

theorem urlsOk_cbPostConfirm (data : List String) (sid : String) (s : Session)
    (t : Transport) (ud : UserData) (inv : Invites) (h : urlsOkUD ud) :
    urlsOkUD (cbPostConfirm data sid s t ud inv).ud := by
  unfold cbPostConfirm
  try dsimp only
  repeat' split
  all_goals first
    | exact h
    | exact urlsOk_postExceptPath _ _ _ _ _ _ _ h
    | exact forall_aerase h

theorem bool_eq_true_of_not_eq_false {b : Bool} (h : ¬ b = false) : b = true := by
  cases b
  · exact absurd rfl h
  · rfl

theorem urlsOk_button_callback (priv : Bool) (d : String) (t : Transport)
    (ud : UserData) (inv : Invites) (h : urlsOkUD ud) :
    urlsOkUD (button_callback priv d t ud inv).ud := by
  unfold button_callback
  try dsimp only
  repeat' split
  all_goals first
    | exact h
    | exact urlsOk_cbAddNew _ _ _ _ _ _ _ h (sessOk_of_alook h (by assumption))
    | exact urlsOk_cbDone _ _ _ _ _ h (sessOk_of_alook h (by assumption))
    | exact urlsOk_cbPost _ _ _ _ _ h (sessOk_of_alook h (by assumption))
    | exact urlsOk_cbPostConfirm _ _ _ _ _ _ h

theorem urlsOk_msgAppendDone (sid : String) (sMut : Session) (t : Transport)
    (ud : UserData) (inv : Invites) (h : urlsOkUD ud) (hs : sessUrlsOk sMut) :
    urlsOkUD (msgAppendDone sid sMut t ud inv).ud := by
  unfold msgAppendDone
  try dsimp only
  repeat' split
  all_goals first
    | exact forall_ains h hs
    | exact forall_ains (forall_ains h hs) hs

theorem urlsOk_msgAdminCheck (m : Msg) (d : Int) (sid : String) (s : Session)
    (t : Transport) (ud : UserData) (inv : Invites)
    (h : urlsOkUD ud) (hs : sessUrlsOk s) :
    urlsOkUD (msgAdminCheck m d sid s t ud inv).ud := by
  unfold msgAdminCheck
  try dsimp only
  repeat' split
  all_goals first
    | exact h
    | exact forall_ains h hs

theorem urlsOk_msgPostDest (m : Msg) (sid : String) (s : Session) (t : Transport)
    (ud : UserData) (inv : Invites) (h : urlsOkUD ud) (hs : sessUrlsOk s) :
    urlsOkUD (msgPostDest m sid s t ud inv).ud := by
  unfold msgPostDest msgInvalidInput
  try dsimp only
  repeat' split
  all_goals first
    | exact h
    | exact urlsOk_msgAdminCheck _ _ _ _ _ _ _ h hs

theorem urlsOk_msgButtonInfo (m : Msg) (sid : String) (s : Session) (t : Transport)
    (ud : UserData) (inv : Invites) (h : urlsOkUD ud) (hs : sessUrlsOk s) :
    urlsOkUD (msgButtonInfo m sid s t ud inv).ud := by
  unfold msgButtonInfo
  try dsimp only
  repeat' split
  all_goals first
    | exact h
    | exact urlsOk_msgAppendDone _ _ _ _ _ h
        (sessUrlsOk_append_row hs (bool_eq_true_of_not_eq_false (by assumption)))
    | exact urlsOk_msgAppendDone _ _ _ _ _ h
        (sessUrlsOk_set_row _ hs (bool_eq_true_of_not_eq_false (by assumption)))

theorem urlsOk_button_info_handler (m : Msg) (suffix : String) (t : Transport)
    (ud : UserData) (inv : Invites) (h : urlsOkUD ud)
    (hm : ∀ row ∈ extract_buttons m, ∀ b ∈ row, is_valid_url b.url = true) :
    urlsOkUD (button_info_handler m suffix t ud inv).ud := by
  unfold button_info_handler
  try dsimp only
  repeat' split
  all_goals first
    | exact h
    | exact urlsOk_msgPostDest _ _ _ _ _ _ h (sessOk_of_alook h (by assumption))
    | exact urlsOk_msgButtonInfo _ _ _ _ _ _ h (sessOk_of_alook h (by assumption))
    | exact urlsOk_start_message _ _ _ _ _ h hm

theorem urlsOk_inline_query (q : String) (t : Transport) (ud : UserData)
    (inv : Invites) (h : urlsOkUD ud) :
    urlsOkUD (inline_query_handler q t ud inv).ud := by
  unfold inline_query_handler
  try dsimp only
  repeat' split
  all_goals exact h

/-- C4 counterexample: a forwarded message whose keyboard carries a
button with url `"ftp://x"` creates a session holding that
non-whitelisted URL — extraction performs no whitelist check, so the
claimed invariant fails at session creation from a forwarded message. -/
theorem c4_extraction_skips_whitelist :
    ((alook "9_u1" (button_info_handler
        { msgTxt "x" with forward_date := true,
                          reply_markup := [[⟨"x", some "ftp://x"⟩]] }
        "u1" okTransport {} []).ud.sessions).map Session.inline_buttons)
      = some [[⟨"x", "ftp://x"⟩]]
    ∧ is_valid_url "ftp://x" = false := by
  decide

/-- C4 amended: provided every forwarded message's extracted buttons
already satisfy the scheme whitelist (the extraction itself copies
them unchecked), every reachable session state satisfies the URL
invariant: free-text button input is whitelist-checked at the moment it
is added, and every operation preserves the invariant. -/
theorem c4_urls_whitelisted_given_checked_extraction
    (g : GState) (evs : List Ev)
    (hg : urlsOkUD g.ud) (hevs : ∀ e ∈ evs, evUrlsOk e) :
    urlsOkUD (runEvs g evs).ud := by
  induction evs generalizing g with
  | nil => exact hg
  | cons e es ih =>
    refine ih (applyEv g e) ?_ (fun e2 h2 => hevs e2 (by simp [h2]))
    have he := hevs e (by simp)
    cases e with
    | msg m suffix t => exact urlsOk_button_info_handler m suffix t g.ud g.inv hg he
    | cb priv d t => exact urlsOk_button_callback priv d t g.ud g.inv hg
    | inq q t => exact urlsOk_inline_query q t g.ud g.inv hg

/-- C4 witness: the amended statement over a concrete three-event trace
(create a session, press new_row, send a valid label/URL). -/
theorem c4_whitelist_witness :
    urlsOkUD (runEvs g0
      [.msg (msgTxt "Hello") "abc" okTransport,
       .cb true "session:9_abc:new_row" okTransport,
       .msg (msgTxt "Go https://go.dev") "zzz" okTransport]).ud :=
  c4_urls_whitelisted_given_checked_extraction g0 _
    (by intro p hp; simp [g0] at hp)
    (by
      intro e he
      simp only [List.mem_cons, List.mem_singleton] at he
      rcases he with rfl | rfl | rfl | hfalse
      · intro row hr b hb
        simp [extract_buttons, msgTxt] at hr
      · trivial
      · intro row hr b hb
        simp [extract_buttons, msgTxt] at hr
      · cases hfalse)

/-! ## Claim C5 -/

/-- The claim's per-session invariant: when the session awaits a button
label, its target row index is in `[0, rowCount]`. -/
def sessTargetOk (s : Session) : Prop :=
  s.awaiting_button_info = true →
    ∃ i, s.target_row = some i ∧ 0 ≤ i ∧ i ≤ Int.ofNat s.inline_buttons.length

/-- The pointer-side invariant: the session the awaiting-label pointer
resolves to has an in-range target row, so the free-text append cannot
index out of range. -/
def ptrTargetOk (ud : UserData) : Prop :=
  ∀ sid s, ud.awaiting_session_id = some sid → alook sid ud.sessions = some s →
    ∃ i, s.target_row = some i ∧ 0 ≤ i ∧ i ≤ Int.ofNat s.inline_buttons.length

/-- Session-store keys are unique (Python dict keys). -/
def keysNodup (ud : UserData) : Prop :=
  (ud.sessions.map Prod.fst).Nodup

/-- The inductive invariant for the target-row claim. -/
def InvC5 (ud : UserData) : Prop :=
  keysNodup ud ∧ ptrTargetOk ud ∧ ∀ p ∈ ud.sessions, sessTargetOk p.2

/-- Side condition of an event: an `add_to_row` callback carries a row
index in `[0, rowCount]` of the session it addresses (true of every
payload the bot's own keyboards generate), and a new message's
generated session id is fresh — not a current key and not the current
awaiting-label pointer (uuid ids are never reused). -/
def evTargetOk (g : GState) : Ev → Prop
  | .msg m suffix _ =>
      (toString m.message_id ++ "_" ++ suffix) ∉ g.ud.sessions.map Prod.fst
      ∧ g.ud.awaiting_session_id ≠ some (toString m.message_id ++ "_" ++ suffix)
  | .cb _ d _ =>
      ∀ i s, (splitOnChar ':' d).getD 2 "" = "add_to_row" →
        pyInt ((splitOnChar ':' d).getD 3 "") = some i →
        alook ((splitOnChar ':' d).getD 1 "") g.ud.sessions = some s →
        0 ≤ i ∧ i ≤ Int.ofNat s.inline_buttons.length
  | .inq _ _ => True

/-- A trace whose events all satisfy their side condition at the state
where they fire. -/
def validC5 : GState → List Ev → Prop
  | _, [] => True
  | g, e :: es => evTargetOk g e ∧ validC5 (applyEv g e) es

/-- Total number of buttons of a session. -/
def btnCount (s : Session) : Nat :=
  (s.inline_buttons.map List.length).sum

theorem memKey_ains {κ α : Type} [DecidableEq κ] {x k : κ} {v : α} :
    ∀ {l : List (κ × α)}, x ∈ (ains k v l).map Prod.fst →
      x = k ∨ x ∈ l.map Prod.fst := by
  intro l hx
  simp only [List.mem_map] at hx
  obtain ⟨p, hp, he⟩ := hx
  rcases mem_ains hp with h1 | h1
  · left; rw [h1] at he; exact he.symm
  · right; exact List.mem_map.mpr ⟨p, h1, he⟩

theorem nodup_ains {κ α : Type} [DecidableEq κ] {k : κ} {v : α} :
    ∀ {l : List (κ × α)}, (l.map Prod.fst).Nodup →
      ((ains k v l).map Prod.fst).Nodup := by
  intro l
  induction l with
  | nil => intro _; simp [ains]
  | cons hd tl ih =>
    cases hd with
    | mk k2 v2 =>
      intro h
      simp only [List.map_cons, List.nodup_cons] at h
      obtain ⟨hnotin, hnd⟩ := h
      by_cases h2 : k2 = k
      · simp only [ains, if_pos h2, List.map_cons, List.nodup_cons]
        exact ⟨hnotin, hnd⟩
      · simp only [ains, if_neg h2, List.map_cons, List.nodup_cons]
        refine ⟨?_, ih hnd⟩
        intro hmem
        rcases memKey_ains hmem with h3 | h3
        · exact h2 h3
        · exact hnotin h3

theorem aerase_sublist {κ α : Type} [DecidableEq κ] (k : κ) :
    ∀ l : List (κ × α), List.Sublist (aerase k l) l := by
  intro l
  induction l with
  | nil => simp [aerase]
  | cons hd tl ih =>
    cases hd with
    | mk k2 v2 =>
      by_cases h : k2 = k
      · simp only [aerase, if_pos h]
        exact List.sublist_cons_self _ _
      · simp only [aerase, if_neg h]
        exact List.Sublist.cons₂ _ ih

theorem nodup_aerase {κ α : Type} [DecidableEq κ] {k : κ} {l : List (κ × α)}
    (h : (l.map Prod.fst).Nodup) : ((aerase k l).map Prod.fst).Nodup :=
  ((aerase_sublist k l).map Prod.fst).nodup h

theorem alook_aerase_ne {κ α : Type} [DecidableEq κ] {k k2 : κ} (h : k ≠ k2) :
    ∀ l : List (κ × α), alook k (aerase k2 l) = alook k l := by
  intro l
  induction l with
  | nil => simp [aerase]
  | cons hd tl ih =>
    cases hd with
    | mk k3 v3 =>
      by_cases h3 : k3 = k2
      · simp only [aerase, if_pos h3, alook]
        have : ¬ k3 = k := by rw [h3]; exact fun he => h he.symm
        simp [this, ih]
      · simp only [aerase, if_neg h3, alook]
        by_cases h4 : k3 = k <;> simp [h4, ih]

theorem invC5_unchanged_sessions {ud : UserData} (hI : InvC5 ud)
    (ud2 : UserData) (hs : ud2.sessions = ud.sessions)
    (hp : ud2.awaiting_session_id = ud.awaiting_session_id) : InvC5 ud2 := by
  refine ⟨?_, ?_, ?_⟩
  · unfold keysNodup; rw [hs]; exact hI.1
  · intro sid s hp2 hl
    exact hI.2.1 sid s (by rw [← hp]; exact hp2) (by rw [← hs]; exact hl)
  · rw [hs]; exact hI.2.2

/-- Re-inserting the looked-up session with unchanged pending-input and
row fields preserves the invariant. -/
theorem invC5_update_same {ud : UserData} {sid : String} {s s2 : Session}
    (hI : InvC5 ud) (hlk : alook sid ud.sessions = some s)
    (ht : s2.target_row = s.target_row)
    (hf : s2.awaiting_button_info = s.awaiting_button_info)
    (hr : s2.inline_buttons = s.inline_buttons) :
    InvC5 { ud with sessions := ains sid s2 ud.sessions } := by
  have hsOk : sessTargetOk s := hI.2.2 (sid, s) (alook_mem hlk)
  have hs2 : sessTargetOk s2 := by
    intro hflag
    obtain ⟨i, h1, h2, h3⟩ := hsOk (by rw [← hf]; exact hflag)
    exact ⟨i, by rw [ht]; exact h1, h2, by rw [hr]; exact h3⟩
  refine ⟨nodup_ains hI.1, ?_, forall_ains hI.2.2 hs2⟩
  intro sid' s' hp hl
  simp only [] at hp hl
  by_cases he : sid = sid'
  · subst he
    rw [alook_ains_self] at hl
    obtain rfl := Option.some.inj hl
    obtain ⟨i, h1, h2, h3⟩ := hI.2.1 sid s hp hlk
    exact ⟨i, by rw [ht]; exact h1, h2, by rw [hr]; exact h3⟩
  · rw [alook_ains_ne _ he ud.sessions] at hl
    exact hI.2.1 sid' s' hp hl

/-- Deleting a session preserves the invariant. -/
theorem invC5_aerase {ud : UserData} (sid : String) (hI : InvC5 ud) :
    InvC5 { ud with sessions := aerase sid ud.sessions } := by
  refine ⟨nodup_aerase hI.1, ?_, forall_aerase hI.2.2⟩
  intro sid' s' hp hl
  simp only [] at hp hl
  by_cases he : sid' = sid
  · subst he
    rw [alook_aerase_self hI.1] at hl
    cases hl
  · rw [alook_aerase_ne he ud.sessions] at hl
    exact hI.2.1 sid' s' hp hl

theorem invC5_clear_label_ptr {ud : UserData} (hI : InvC5 ud) :
    InvC5 { ud with awaiting_session_id := none } := by
  refine ⟨hI.1, ?_, hI.2.2⟩
  intro sid' s' hp hl
  simp only [] at hp
  cases hp

/-- Inserting a session with pending input cleared, while clearing the
awaiting-label pointer, preserves the invariant. -/
theorem invC5_insert_cleared {ud : UserData} {k : String} {v : Session}
    (hI : InvC5 ud) (hvflag : v.awaiting_button_info = false) :
    InvC5 { ud with sessions := ains k v ud.sessions,
                    awaiting_session_id := none } := by
  refine ⟨nodup_ains hI.1, ?_, forall_ains hI.2.2 ?_⟩
  · intro sid' s' hp hl
    simp only [] at hp
    cases hp
  · intro hflag
    rw [hvflag] at hflag
    cases hflag

theorem invC5_cbSetTarget (i : Int) (sid : String) (s : Session) (t : Transport)
    (ud : UserData) (inv : Invites) (hI : InvC5 ud)
    (hb : 0 ≤ i ∧ i ≤ Int.ofNat s.inline_buttons.length) :
    InvC5 (cbSetTarget i sid s t ud inv).ud := by
  have hcore : InvC5 { ud with
      sessions := ains sid { s with awaiting_button_info := true, target_row := some i } ud.sessions,
      awaiting_session_id := some sid } := by
    refine ⟨nodup_ains hI.1, ?_, forall_ains hI.2.2 (fun _ => ⟨i, rfl, hb⟩)⟩
    intro sid' s' hp hl
    simp only [] at hp hl
    obtain rfl := Option.some.inj hp
    rw [alook_ains_self] at hl
    obtain rfl := Option.some.inj hl
    exact ⟨i, rfl, hb⟩
  unfold cbSetTarget
  try dsimp only
  repeat' split
  all_goals exact hcore

theorem invC5_cbAddNew (isAdd : Bool) (data : List String) (sid : String)
    (s : Session) (t : Transport) (ud : UserData) (inv : Invites) (hI : InvC5 ud)
    (hbnd : ∀ i, isAdd = true → pyInt (data.getD 3 "") = some i →
      0 ≤ i ∧ i ≤ Int.ofNat s.inline_buttons.length) :
    InvC5 (cbAddNew isAdd data sid s t ud inv).ud := by
  unfold cbAddNew
  cases hA : isAdd with
  | false =>
    simp only [Bool.false_eq_true, if_false]
    exact invC5_cbSetTarget _ _ _ _ _ _ hI ⟨Int.ofNat_nonneg _, le_refl _⟩
  | true =>
    simp only [if_true]
    split
    · exact hI
    · split
      · exact hI
      · rename_i i hpy
        exact invC5_cbSetTarget _ _ _ _ _ _ hI (hbnd i hA hpy)

theorem invC5_cbDone (sid : String) (s : Session) (t : Transport)
    (ud : UserData) (inv : Invites) (hI : InvC5 ud)
    (hlk : alook sid ud.sessions = some s) :
    InvC5 (cbDone sid s t ud inv).ud := by
  unfold cbDone
  try dsimp only
  repeat' split
  all_goals first
    | exact hI
    | exact invC5_update_same hI hlk rfl rfl rfl

theorem invC5_cbPost (sid : String) (s : Session) (t : Transport)
    (ud : UserData) (inv : Invites) (hI : InvC5 ud)
    (hlk : alook sid ud.sessions = some s) :
    InvC5 (cbPost sid s t ud inv).ud := by
  unfold cbPost
  try dsimp only
  repeat' split
  all_goals exact invC5_update_same hI hlk rfl rfl rfl

theorem invC5_postExceptPath (sid : String) (s : Session) (t : Transport)
    (ud : UserData) (inv : Invites) (calls : List TCall) (e : String)
    (hI : InvC5 ud) :
    InvC5 (postExceptPath sid s t ud inv calls e).ud := by
  unfold postExceptPath
  try dsimp only
  repeat' split
  all_goals first
    | exact hI
    | exact invC5_aerase sid hI

theorem invC5_cbPostConfirm (data : List String) (sid : String) (s : Session)
    (t : Transport) (ud : UserData) (inv : Invites) (hI : InvC5 ud) :
    InvC5 (cbPostConfirm data sid s t ud inv).ud := by
  unfold cbPostConfirm
  try dsimp only
  repeat' split
  all_goals first
    | exact hI
    | exact invC5_postExceptPath _ _ _ _ _ _ _ hI
    | exact invC5_aerase sid hI

theorem invC5_button_callback (priv : Bool) (d : String) (t : Transport)
    (ud : UserData) (inv : Invites) (hI : InvC5 ud)
    (hev : ∀ i s, (splitOnChar ':' d).getD 2 "" = "add_to_row" →
      pyInt ((splitOnChar ':' d).getD 3 "") = some i →
      alook ((splitOnChar ':' d).getD 1 "") ud.sessions = some s →
      0 ≤ i ∧ i ≤ Int.ofNat s.inline_buttons.length) :
    InvC5 (button_callback priv d t ud inv).ud := by
  unfold button_callback
  try dsimp only
  by_cases hpriv : priv = false
  · rw [if_pos hpriv]; exact hI
  · rw [if_neg hpriv]
    cases t.answerCb with
    | error e => exact hI
    | ok u =>
      by_cases hguard : (splitOnChar ':' d).length < 3
          ∨ (splitOnChar ':' d).getD 0 "" ≠ "session"
      · rw [if_pos hguard]; exact hI
      · rw [if_neg hguard]
        cases hlk : alook ((splitOnChar ':' d).getD 1 "") ud.sessions with
        | none => cases t.editMsgText "Session not found." <;> exact hI
        | some s =>
          simp only []
          by_cases hact : (splitOnChar ':' d).getD 2 "" = "add_to_row"
              ∨ (splitOnChar ':' d).getD 2 "" = "new_row"
          · rw [if_pos hact]
            refine invC5_cbAddNew _ _ _ _ _ _ _ hI ?_
            intro i hAdd hpy
            exact hev i s (of_decide_eq_true hAdd) hpy hlk
          · rw [if_neg hact]
            by_cases hdone : (splitOnChar ':' d).getD 2 "" = "done"
            · rw [if_pos hdone]
              exact invC5_cbDone _ _ _ _ _ hI hlk
            · rw [if_neg hdone]
              by_cases hpost : (splitOnChar ':' d).getD 2 "" = "post"
              · rw [if_pos hpost]
                exact invC5_cbPost _ _ _ _ _ hI hlk
              · rw [if_neg hpost]
                by_cases hpc : (splitOnChar ':' d).getD 2 "" = "post_confirm"
                · rw [if_pos hpc]
                  exact invC5_cbPostConfirm _ _ _ _ _ _ hI
                · rw [if_neg hpc]; exact hI

theorem invC5_insert_fresh {ud : UserData} {k : String} {v : Session}
    (hI : InvC5 ud) (hvflag : v.awaiting_button_info = false)
    (hfresh : ud.awaiting_session_id ≠ some k) :
    InvC5 { ud with sessions := ains k v ud.sessions } := by
  refine ⟨nodup_ains hI.1, ?_, forall_ains hI.2.2 (fun hflag => by
    rw [hvflag] at hflag; cases hflag)⟩
  intro sid' s' hp hl
  simp only [] at hp hl
  by_cases he : sid' = k
  · subst he
    exact absurd hp hfresh
  · rw [alook_ains_ne _ (fun hx => he hx.symm) ud.sessions] at hl
    exact hI.2.1 sid' s' hp hl

theorem invC5_start_message (m : Msg) (suffix : String) (t : Transport)
    (ud : UserData) (inv : Invites) (hI : InvC5 ud)
    (hfresh : ud.awaiting_session_id ≠ some (toString m.message_id ++ "_" ++ suffix)) :
    InvC5 (start_message m suffix t ud inv).ud := by
  unfold start_message
  try dsimp only
  repeat' split
  all_goals first
    | exact hI
    | exact invC5_insert_fresh hI rfl hfresh
    | exact invC5_insert_fresh (invC5_insert_fresh hI rfl hfresh) rfl hfresh

theorem invC5_msgAppendDone (sid : String) (sMut : Session) (t : Transport)
    (ud : UserData) (inv : Invites) (hI : InvC5 ud) :
    InvC5 (msgAppendDone sid sMut t ud inv).ud := by
  unfold msgAppendDone
  try dsimp only
  repeat' split
  all_goals first
    | exact invC5_insert_cleared hI rfl
    | exact invC5_insert_cleared (invC5_insert_cleared hI rfl) rfl

theorem invC5_msgAdminCheck (m : Msg) (d : Int) (sid : String) (s : Session)
    (t : Transport) (ud : UserData) (inv : Invites) (hI : InvC5 ud)
    (hlk : alook sid ud.sessions = some s) :
    InvC5 (msgAdminCheck m d sid s t ud inv).ud := by
  unfold msgAdminCheck
  try dsimp only
  repeat' split
  all_goals first
    | exact hI
    | exact invC5_unchanged_sessions hI _ rfl rfl
    | exact invC5_update_same hI hlk rfl rfl rfl

theorem invC5_msgPostDest (m : Msg) (sid : String) (s : Session) (t : Transport)
    (ud : UserData) (inv : Invites) (hI : InvC5 ud)
    (hlk : alook sid ud.sessions = some s) :
    InvC5 (msgPostDest m sid s t ud inv).ud := by
  unfold msgPostDest msgInvalidInput
  try dsimp only
  repeat' split
  all_goals first
    | exact hI
    | exact invC5_msgAdminCheck _ _ _ _ _ _ _ hI hlk

theorem invC5_msgButtonInfo (m : Msg) (sid : String) (s : Session) (t : Transport)
    (ud : UserData) (inv : Invites) (hI : InvC5 ud) :
    InvC5 (msgButtonInfo m sid s t ud inv).ud := by
  unfold msgButtonInfo
  try dsimp only
  repeat' split
  all_goals first
    | exact hI
    | exact invC5_msgAppendDone _ _ _ _ _ hI

theorem invC5_button_info_handler (m : Msg) (suffix : String) (t : Transport)
    (ud : UserData) (inv : Invites) (hI : InvC5 ud)
    (hfresh : ud.awaiting_session_id ≠ some (toString m.message_id ++ "_" ++ suffix)) :
    InvC5 (button_info_handler m suffix t ud inv).ud := by
  unfold button_info_handler
  try dsimp only
  repeat' split
  all_goals first
    | exact hI
    | exact invC5_unchanged_sessions hI _ rfl rfl
    | exact invC5_clear_label_ptr hI
    | exact invC5_msgPostDest _ _ _ _ _ _ hI (by assumption)
    | exact invC5_msgButtonInfo _ _ _ _ _ _ hI
    | exact invC5_start_message _ _ _ _ _ hI hfresh

theorem invC5_inline_query (q : String) (t : Transport) (ud : UserData)
    (inv : Invites) (hI : InvC5 ud) :
    InvC5 (inline_query_handler q t ud inv).ud := by
  unfold inline_query_handler
  try dsimp only
  repeat' split
  all_goals exact hI

theorem invC5_stepEv (g : GState) (e : Ev) (hI : InvC5 g.ud)
    (hev : evTargetOk g e) : InvC5 (applyEv g e).ud := by
  cases e with
  | msg m suffix t => exact invC5_button_info_handler m suffix t g.ud g.inv hI hev.2
  | cb priv d t => exact invC5_button_callback priv d t g.ud g.inv hI hev
  | inq q t => exact invC5_inline_query q t g.ud g.inv hI

theorem invC5_runEvs :
    ∀ (evs : List Ev) (g : GState), InvC5 g.ud → validC5 g evs →
      InvC5 (runEvs g evs).ud := by
  intro evs
  induction evs with
  | nil => intro g hI _; exact hI
  | cons e es ih =>
    intro g hI hv
    exact ih (applyEv g e) (invC5_stepEv g e hI hv.1) hv.2

theorem sum_len_set_append (b : Btn) :
    ∀ (l : List (List Btn)) (idx : Nat), idx < l.length →
      ((l.set idx ((l.getD idx []) ++ [b])).map List.length).sum
        = ((l.map List.length).sum) + 1 := by
  intro l
  induction l with
  | nil => intro idx h; cases h
  | cons hd tl ih =>
    intro idx h
    cases idx with
    | zero =>
      simp only [List.getD_cons_zero, List.set_cons_zero, List.map_cons,
        List.sum_cons, List.length_append, List.length_singleton]
      omega
    | succ n =>
      have hn : n < tl.length := by simpa using h
      simp only [List.getD_cons_succ, List.set_cons_succ, List.map_cons,
        List.sum_cons]
      rw [ih n hn]
      omega

/-- Under the pointer invariant, an accepted label/URL free text never
indexes out of range: the pending state is cleared and exactly one
button is appended. -/
theorem append_in_range (ud : UserData) (hptr : ptrTargetOk ud)
    (m : Msg) (suffix : String) (t : Transport) (inv : Invites)
    (sid : String) (s : Session) (txt label url : String)
    (hpost : ud.awaiting_post_session_id = none)
    (hlbl : ud.awaiting_session_id = some sid)
    (hlk : alook sid ud.sessions = some s)
    (hpriv : m.chat_private = true)
    (htxt : m.text = some txt)
    (hsplit : rsplitSpace1 (pyStrip txt) = [label, url])
    (hvalid : is_valid_url url = true) :
    (button_info_handler m suffix t ud inv).ud.awaiting_session_id = none
    ∧ ∃ s2, alook sid (button_info_handler m suffix t ud inv).ud.sessions = some s2
        ∧ s2.awaiting_button_info = false ∧ s2.target_row = none
        ∧ btnCount s2 = btnCount s + 1 := by
  obtain ⟨i, hi, hi0, hile⟩ := hptr sid s hlbl hlk
  unfold button_info_handler msgButtonInfo
  simp only [hpriv, hpost, hlbl, hlk, htxt, hsplit, hi, Bool.true_eq_false, if_false]
  rw [if_neg (by simp)]
  simp only [List.getD_cons_zero, List.getD_cons_succ]
  rw [if_neg (by simp [hvalid])]
  by_cases hin : i = Int.ofNat s.inline_buttons.length
  · rw [if_pos hin]
    unfold msgAppendDone
    try dsimp only
    repeat' split
    all_goals refine ⟨rfl, _, alook_ains_self _ _ _, rfl, rfl, ?_⟩
    all_goals simp only [btnCount]
    all_goals simp
  · rw [if_neg hin]
    have hlt : i < Int.ofNat s.inline_buttons.length := lt_of_le_of_ne hile hin
    rw [if_pos ⟨le_trans (neg_nonpos.mpr (Int.ofNat_nonneg _)) hi0, hlt⟩]
    rw [if_neg (not_lt.mpr hi0)]
    have hidx : i.toNat < s.inline_buttons.length := by
      rw [Int.ofNat_eq_natCast] at hlt
      omega
    unfold msgAppendDone
    try dsimp only
    repeat' split
    all_goals refine ⟨rfl, _, alook_ains_self _ _ _, rfl, rfl, ?_⟩
    all_goals simp only [btnCount]
    all_goals exact sum_len_set_append _ _ _ hidx

/-- C5 counterexample: an `add_to_row` payload carrying row index 1
against a freshly created session with zero rows is accepted and stored
— the reachable state then violates the claimed invariant
(`targetRowIndex ≤ rowCount` fails: 1 > 0), and the subsequent accepted
label/URL text raises `IndexError`: the append *does* index
`buttonRows` out of range. -/
theorem c5_arbitrary_row_index_escapes_range :
    ((alook "9_abc" (runEvs g0
        [.msg (msgTxt "Hello") "abc" okTransport,
         .cb true "session:9_abc:add_to_row:1" okTransport]).ud.sessions).map
      (fun s => (s.awaiting_button_info, s.target_row, s.inline_buttons.length)))
      = some (true, some 1, 0)
    ∧ (stepEv (runEvs g0
        [.msg (msgTxt "Hello") "abc" okTransport,
         .cb true "session:9_abc:add_to_row:1" okTransport])
        (.msg (msgTxt "A https://x.io") "zz" okTransport)).err
      = some "IndexError: list index out of range" := by
  decide

/-- C5 amended: for traces whose `add_to_row` payloads carry a row
index within `[0, rowCount]` of the addressed session — as every
payload generated by the bot's own keyboards does — and whose generated
session ids are fresh, every reachable state satisfies the invariant:
whenever `pendingInput` is `awaitingButtonLabel(targetRowIndex)`,
`0 ≤ targetRowIndex ≤ rowCount` (both per session and through the
store's awaiting pointer), and consequently an accepted label/URL text
never indexes `buttonRows` out of range: it clears the pending state
and appends exactly one button.  For arbitrary payloads the handler
stores the index unchecked and the append can raise `IndexError` (see
the counterexample). -/
theorem c5_target_in_range_for_generated_payloads
    (g : GState) (evs : List Ev) (hg : InvC5 g.ud) (hevs : validC5 g evs) :
    (∀ p ∈ (runEvs g evs).ud.sessions, sessTargetOk p.2)
    ∧ ptrTargetOk (runEvs g evs).ud
    ∧ (∀ (m : Msg) (suffix : String) (t : Transport) (inv2 : Invites)
        (sid : String) (s : Session) (txt label url : String),
        (runEvs g evs).ud.awaiting_post_session_id = none →
        (runEvs g evs).ud.awaiting_session_id = some sid →
        alook sid (runEvs g evs).ud.sessions = some s →
        m.chat_private = true → m.text = some txt →
        rsplitSpace1 (pyStrip txt) = [label, url] →
        is_valid_url url = true →
        (button_info_handler m suffix t (runEvs g evs).ud inv2).ud.awaiting_session_id = none
        ∧ ∃ s2, alook sid (button_info_handler m suffix t (runEvs g evs).ud inv2).ud.sessions
              = some s2
            ∧ s2.awaiting_button_info = false ∧ s2.target_row = none
            ∧ btnCount s2 = btnCount s + 1) := by
  have hrun : InvC5 (runEvs g evs).ud := invC5_runEvs evs g hg hevs
  refine ⟨hrun.2.2, hrun.2.1, ?_⟩
  intro m suffix t inv2 sid s txt label url hpost hlbl hlk hpriv htxt hsplit hvalid
  exact append_in_range _ hrun.2.1 m suffix t inv2 sid s txt label url
    hpost hlbl hlk hpriv htxt hsplit hvalid

/-- The session reached by the witness trace after `new_row`. -/
def sessW : Session where
  session_id := "9_abc"
  chat_id := 55
  text := "Hello"
  inline_buttons := []
  awaiting_button_info := true
  target_row := some 0
  last_message_id := some 1000
  is_media := false
  original_message_id := 9
  final_message_id := none
  awaiting_post := false
  post_channel := none

/-- C5 witness: the amended statement over the concrete trace
"create session, press new_row", followed by the accepted text
`"Go https://go.dev"`, which appends exactly one button. -/
theorem c5_target_witness :
    (button_info_handler (msgTxt "Go https://go.dev") "zz" okTransport
        (runEvs g0 [.msg (msgTxt "Hello") "abc" okTransport,
                    .cb true "session:9_abc:new_row" okTransport]).ud []).ud.awaiting_session_id
      = none :=
  ((c5_target_in_range_for_generated_payloads g0
      [.msg (msgTxt "Hello") "abc" okTransport,
       .cb true "session:9_abc:new_row" okTransport]
      (by
        refine ⟨by simp [keysNodup, g0], ?_, ?_⟩
        · intro sid s hp hl
          simp [g0] at hp
        · intro p hp
          simp [g0] at hp)
      (by
        refine ⟨⟨by decide, by decide⟩, ⟨?_, trivial⟩⟩
        intro i s h
        exact absurd h (by decide))).2.2
    (msgTxt "Go https://go.dev") "zz" okTransport [] "9_abc" sessW
    "Go https://go.dev" "Go" "https://go.dev"
    (by decide) (by decide) (by decide) (by decide) (by decide) (by decide)
    (by decide)).1

end ButtonBot
